import Mathlib

/-!
The `libe57` binding module of pye57 (`src/pye57/libe57_wrapper.cpp`).

A shallow embedding of the pybind11 binding layer.  Every bound lambda of the
wrapper becomes a Lean function; calls that leave the wrapper (into the E57
library or into pybind11's dispatcher) are either modelled from the
specification or taken as parameters, and are marked as such.
-/

namespace Pye57

/-! ## Enumerations re-exported by the module -/

/-- The enumeration `NodeType` (wrapper lines 79-88). -/
inductive NodeType where
  | E57_STRUCTURE
  | E57_VECTOR
  | E57_COMPRESSED_VECTOR
  | E57_INTEGER
  | E57_SCALED_INTEGER
  | E57_FLOAT
  | E57_STRING
  | E57_BLOB
  deriving DecidableEq, Repr

/-- The enumeration `MemoryRepresentation` (wrapper lines 93-105). -/
inductive MemoryRepresentation where
  | E57_INT8
  | E57_UINT8
  | E57_INT16
  | E57_UINT16
  | E57_INT32
  | E57_UINT32
  | E57_INT64
  | E57_BOOL
  | E57_REAL32
  | E57_REAL64
  | E57_USTRING
  deriving DecidableEq, Repr

/-- The enumeration `ErrorCode` (wrapper lines 106-158). -/
inductive ErrorCode where
  | E57_SUCCESS
  | E57_ERROR_BAD_CV_HEADER
  | E57_ERROR_BAD_CV_PACKET
  | E57_ERROR_CHILD_INDEX_OUT_OF_BOUNDS
  | E57_ERROR_SET_TWICE
  | E57_ERROR_HOMOGENEOUS_VIOLATION
  | E57_ERROR_VALUE_NOT_REPRESENTABLE
  | E57_ERROR_SCALED_VALUE_NOT_REPRESENTABLE
  | E57_ERROR_REAL64_TOO_LARGE
  | E57_ERROR_EXPECTING_NUMERIC
  | E57_ERROR_EXPECTING_USTRING
  | E57_ERROR_INTERNAL
  | E57_ERROR_BAD_XML_FORMAT
  | E57_ERROR_XML_PARSER
  | E57_ERROR_BAD_API_ARGUMENT
  | E57_ERROR_FILE_IS_READ_ONLY
  | E57_ERROR_BAD_CHECKSUM
  | E57_ERROR_OPEN_FAILED
  | E57_ERROR_CLOSE_FAILED
  | E57_ERROR_READ_FAILED
  | E57_ERROR_WRITE_FAILED
  | E57_ERROR_LSEEK_FAILED
  | E57_ERROR_PATH_UNDEFINED
  | E57_ERROR_BAD_BUFFER
  | E57_ERROR_NO_BUFFER_FOR_ELEMENT
  | E57_ERROR_BUFFER_SIZE_MISMATCH
  | E57_ERROR_BUFFER_DUPLICATE_PATHNAME
  | E57_ERROR_BAD_FILE_SIGNATURE
  | E57_ERROR_UNKNOWN_FILE_VERSION
  | E57_ERROR_BAD_FILE_LENGTH
  | E57_ERROR_XML_PARSER_INIT
  | E57_ERROR_DUPLICATE_NAMESPACE_PREFIX
  | E57_ERROR_DUPLICATE_NAMESPACE_URI
  | E57_ERROR_BAD_PROTOTYPE
  | E57_ERROR_BAD_CODECS
  | E57_ERROR_VALUE_OUT_OF_BOUNDS
  | E57_ERROR_CONVERSION_REQUIRED
  | E57_ERROR_BAD_PATH_NAME
  | E57_ERROR_NOT_IMPLEMENTED
  | E57_ERROR_BAD_NODE_DOWNCAST
  | E57_ERROR_WRITER_NOT_OPEN
  | E57_ERROR_READER_NOT_OPEN
  | E57_ERROR_NODE_UNATTACHED
  | E57_ERROR_ALREADY_HAS_PARENT
  | E57_ERROR_DIFFERENT_DEST_IMAGEFILE
  | E57_ERROR_IMAGEFILE_NOT_OPEN
  | E57_ERROR_BUFFERS_NOT_COMPATIBLE
  | E57_ERROR_TOO_MANY_WRITERS
  | E57_ERROR_TOO_MANY_READERS
  | E57_ERROR_BAD_CONFIGURATION
  | E57_ERROR_INVARIANCE_VIOLATION
  deriving DecidableEq, Repr

/-- The constant `INT64_MIN` exported as `E57_INT64_MIN` (wrapper line 65). -/
def INT64_MIN : Int := -9223372036854775808

/-- The constant `INT64_MAX` exported as `E57_INT64_MAX` (wrapper line 66). -/
def INT64_MAX : Int := 9223372036854775807

/-- The constant `INT32_MIN` exported as `E57_INT32_MIN` (wrapper line 63). -/
def INT32_MIN : Int := -2147483648

/-- The constant `INT32_MAX` exported as `E57_INT32_MAX` (wrapper line 64). -/
def INT32_MAX : Int := 2147483647

/-! ## Exceptions -/

/-- The native exception `e57::E57Exception`, with the accessors the wrapper
names (lines 46 and 517-523). -/
structure E57Exception where
  errorCode : ErrorCode
  context : String
  sourceFileName : String
  sourceFunctionName : String
  sourceLineNumber : Int
  deriving DecidableEq, Repr

/-- What a bound call can raise: a native library exception (before the
registered translator runs), one of the C++ exceptions the lambdas throw
themselves, or the dispatcher's `TypeError` when no registered overload
accepts the arguments. -/
inductive Raised where
  | e57 (e : E57Exception)
  | index_error
  | runtime_error (what : String)
  | value_error (what : String)
  | type_error
  deriving DecidableEq, Repr

instance instDecidableEqExcept {ε α : Type} [DecidableEq ε] [DecidableEq α] :
    DecidableEq (Except ε α)
  | .ok a, .ok b => if h : a = b then isTrue (by rw [h]) else isFalse (fun h2 => h (Except.ok.inj h2))
  | .error a, .error b =>
    if h : a = b then isTrue (by rw [h]) else isFalse (fun h2 => h (Except.error.inj h2))
  | .ok _, .error _ => isFalse (fun h => Except.noConfusion h)
  | .error _, .ok _ => isFalse (fun h => Except.noConfusion h)

/-- A native exception raised by the library with the given code. -/
def E57_EXCEPTION (code : ErrorCode) : E57Exception :=
  { errorCode := code, context := "", sourceFileName := "",
    sourceFunctionName := "", sourceLineNumber := 0 }

/-! ## Nodes and their Python wrappers -/

/-- A generic node handle `e57::Node`: what `type()` and `elementName()`
report for it. -/
structure Node where
  type : NodeType
  elementName : String
  deriving DecidableEq, Repr

/-- The Python classes the module registers for nodes (`py::class_<...>`,
lines 159-436).  They are registered without base classes and without
implicit conversions. -/
inductive PyClass where
  | Node
  | StructureNode
  | VectorNode
  | CompressedVectorNode
  | IntegerNode
  | ScaledIntegerNode
  | FloatNode
  | StringNode
  | BlobNode
  deriving DecidableEq, Repr

/-- A Python object holding a node: its registered class and the node held. -/
structure PyNode where
  cls : PyClass
  node : Node
  deriving DecidableEq, Repr

/-- The wrapper class that carries nodes of a given `NodeType`. -/
def NodeType.toPyClass : NodeType → PyClass
  | .E57_STRUCTURE => .StructureNode
  | .E57_VECTOR => .VectorNode
  | .E57_COMPRESSED_VECTOR => .CompressedVectorNode
  | .E57_INTEGER => .IntegerNode
  | .E57_SCALED_INTEGER => .ScaledIntegerNode
  | .E57_FLOAT => .FloatNode
  | .E57_STRING => .StringNode
  | .E57_BLOB => .BlobNode

/-- Modelled from the spec: the library's downcasting constructors
`BlobNode(const Node&)`, `StructureNode(const Node&)`, ... are not in the
wrapper.  The spec: "wrap an existing attached node with a checked downcast
(fails with TypeMismatch if the dynamic type disagrees)". -/
def downcast (target : NodeType) (n : Node) : Except Raised Node :=
  if n.type = target then .ok n
  else .error (.e57 (E57_EXCEPTION .E57_ERROR_BAD_NODE_DOWNCAST))

/-- The expression `py::cast(T(n))` for the node class `T` of `target`. -/
def py_cast (target : NodeType) (n : Node) : Except Raised (Option PyNode) :=
  match downcast target n with
  | .ok d => .ok (some { cls := target.toPyClass, node := d })
  | .error e => .error e

/-- The function `cast_node` (wrapper lines 18-36).  The chain of tests is kept
in source order; control reaching the end of the function without a `return`
yields no object (`none`). -/
def cast_node (n : Node) : Except Raised (Option PyNode) :=
  let type := n.type
  if type = NodeType.E57_BLOB then py_cast .E57_BLOB n
  else if type = NodeType.E57_COMPRESSED_VECTOR then py_cast .E57_COMPRESSED_VECTOR n
  else if type = NodeType.E57_FLOAT then py_cast .E57_FLOAT n
  else if type = NodeType.E57_INTEGER then py_cast .E57_INTEGER n
  else if type = NodeType.E57_SCALED_INTEGER then py_cast .E57_SCALED_INTEGER n
  else if type = NodeType.E57_STRING then py_cast .E57_STRING n
  else if type = NodeType.E57_STRUCTURE then py_cast .E57_STRUCTURE n
  else if type = NodeType.E57_VECTOR then py_cast .E57_VECTOR n
  else .ok none

/-! ## StructureNode and VectorNode: length and indexing -/

/-- A `StructureNode` as the indexing lambdas see it: the node and its ordered
children. -/
structure StructureNode where
  self : Node
  children : List Node
  deriving DecidableEq, Repr

/-- A `VectorNode` as the indexing lambdas see it. -/
structure VectorNode where
  self : Node
  allowHeteroChildren : Bool
  children : List Node
  deriving DecidableEq, Repr

/-- The library's `StructureNode::childCount()`, an `int64_t`. -/
def StructureNode.childCount (s : StructureNode) : Int := s.children.length

/-- The library's `VectorNode::childCount()`, an `int64_t`. -/
def VectorNode.childCount (v : VectorNode) : Int := v.children.length

/-- Modelled from the spec: the library's `get(int64_t index)` is not in the
wrapper.  The spec: "get child by index or path (fails with IndexOutOfBounds /
PathUndefined)". -/
def lib_get (children : List Node) (index : Int) : Except Raised Node :=
  if index < 0 ∨ index ≥ (children.length : Int) then
    .error (.e57 (E57_EXCEPTION .E57_ERROR_CHILD_INDEX_OUT_OF_BOUNDS))
  else
    match children[index.toNat]? with
    | some c => .ok c
    | none => .error (.e57 (E57_EXCEPTION .E57_ERROR_CHILD_INDEX_OUT_OF_BOUNDS))

/-- The library's `StructureNode::get(int64_t)`. -/
def StructureNode.get (s : StructureNode) (index : Int) : Except Raised Node :=
  lib_get s.children index

/-- The library's `VectorNode::get(int64_t)`. -/
def VectorNode.get (v : VectorNode) (index : Int) : Except Raised Node :=
  lib_get v.children index

/-- The outcome of an indexing lambda together with the indices it handed to
the library's `get(index)` on the way. -/
structure Indexed where
  getCalls : List Int
  result : Except Raised (Option PyNode)
  deriving DecidableEq, Repr

/-- The binding `__len__` of `StructureNode` (wrapper line 208). -/
def StructureNode.__len__ (s : StructureNode) : Int := s.childCount

/-- The binding `__len__` of `VectorNode` (wrapper line 246). -/
def VectorNode.__len__ (v : VectorNode) : Int := v.childCount

/-- The lambda `StructureNode.__getitem__(index)` (wrapper lines 213-218). -/
def StructureNode.__getitem__ (node : StructureNode) (index : Int) : Indexed :=
  if index ≥ node.childCount ∨ index < 0 then
    { getCalls := [], result := .error .index_error }
  else
    match node.get index with
    | .ok n => { getCalls := [index], result := cast_node n }
    | .error e => { getCalls := [index], result := .error e }

/-- The lambda `VectorNode.__getitem__(index)` (wrapper lines 251-256). -/
def VectorNode.__getitem__ (node : VectorNode) (index : Int) : Indexed :=
  if index ≥ node.childCount ∨ index < 0 then
    { getCalls := [], result := .error .index_error }
  else
    match node.get index with
    | .ok n => { getCalls := [index], result := cast_node n }
    | .error e => { getCalls := [index], result := .error e }

/-! ## The exception translator -/

/-- A C++ exception in flight as the registered translator sees it: a native
`E57Exception`, or an exception of any other type. -/
inductive CppException where
  | e57 (e : E57Exception)
  | other (what : String)
  deriving DecidableEq, Repr

/-- What running the registered translator does. -/
inductive Translated where
  | E57Exception (message : String)
  | rethrown (p : CppException)
  | nothing
  deriving DecidableEq, Repr

/-- The call `std::string::c_str()` read as a C string: the characters before
the first NUL. -/
def c_str (s : String) : String :=
  String.mk (s.toList.takeWhile (fun c => c ≠ Char.ofNat 0))

/-- The translator registered by `py::register_exception_translator` (wrapper
lines 41-48).  The library's `Utilities::errorCodeToString` is not in the
wrapper and is a parameter.  A null exception pointer (`none`) does nothing;
an exception that is not an `E57Exception` is not caught here. -/
def exception_translator (errorCodeToString : ErrorCode → String)
    (p : Option CppException) : Translated :=
  match p with
  | none => .nothing
  | some (.e57 e) => .E57Exception (c_str (errorCodeToString e.errorCode))
  | some (.other w) => .rethrown (.other w)

/-- The error-code table used to exercise the translator: two distinct
NUL-free strings. -/
def sampleErrorCodeToString (c : ErrorCode) : String :=
  if c = .E57_SUCCESS then "operation was successful (E57_SUCCESS)" else "error"

/-! ## SourceDestBuffer -/

/-- The element types a buffer pointer can have: the ten types the wrapper
casts `info.ptr` to (lines 276-294), and `uint64_t`, the unsigned 64-bit kind
of the spec's closed set, which the wrapper never casts to. -/
inductive CType where
  | int8_t
  | uint8_t
  | int16_t
  | uint16_t
  | int32_t
  | uint32_t
  | int64_t
  | uint64_t
  | bool
  | float
  | double
  deriving DecidableEq, Repr

/-- The operator `sizeof` on the element types (`sizeof(bool)` is 1 on the
supported ABIs). -/
def sizeof : CType → Nat
  | .int8_t => 1
  | .uint8_t => 1
  | .int16_t => 2
  | .uint16_t => 2
  | .int32_t => 4
  | .uint32_t => 4
  | .int64_t => 8
  | .uint64_t => 8
  | .bool => 1
  | .float => 4
  | .double => 8

/-- The closed set of numeric element kinds as the spec words it: "signed/unsigned
8/16/32/64-bit integers, boolean, 32/64-bit float". -/
def specElementKinds : List CType :=
  [.int8_t, .uint8_t, .int16_t, .uint16_t, .int32_t, .uint32_t, .int64_t, .uint64_t,
   .bool, .float, .double]

/-- An open container handle `e57::ImageFile`, forwarded unchanged. -/
structure ImageFile where
  fileName : String
  deriving DecidableEq, Repr

/-- The fields of `py::buffer_info` that the wrapper reads. -/
structure buffer_info where
  format : String
  ndim : Int
  shape : List Int
  deriving DecidableEq, Repr

/-- A library `SourceDestBuffer` as constructed: the arguments its constructor
received, `b` being the element type of the pointer.  The accessors bound at
lines 310-314 read these fields. -/
structure SourceDestBuffer where
  destImageFile : ImageFile
  pathName : String
  b : CType
  capacity : Nat
  doConversion : Bool
  doScaling : Bool
  stride : Nat
  deriving DecidableEq, Repr

/-- The lambda bound as `SourceDestBuffer.__init__` (wrapper lines 262-297),
all seven arguments given. -/
def SourceDestBuffer.init (imf : ImageFile) (pathName : String) (np_array : buffer_info)
    (capacity : Nat) (doConversion doScaling : Bool) (stride : Nat) :
    Except Raised SourceDestBuffer :=
  let info := np_array
  if info.ndim ≠ 1 then
    .error (.runtime_error "Incompatible buffer dimension!")
  else if info.format = "b" then
    .ok ⟨imf, pathName, .int8_t, capacity, doConversion, doScaling,
      if stride = 0 then sizeof .int8_t else stride⟩
  else if info.format = "B" then
    .ok ⟨imf, pathName, .uint8_t, capacity, doConversion, doScaling,
      if stride = 0 then sizeof .uint8_t else stride⟩
  else if info.format = "h" then
    .ok ⟨imf, pathName, .int16_t, capacity, doConversion, doScaling,
      if stride = 0 then sizeof .int16_t else stride⟩
  else if info.format = "H" then
    .ok ⟨imf, pathName, .uint16_t, capacity, doConversion, doScaling,
      if stride = 0 then sizeof .uint16_t else stride⟩
  else if info.format = "l" then
    .ok ⟨imf, pathName, .int32_t, capacity, doConversion, doScaling,
      if stride = 0 then sizeof .int32_t else stride⟩
  else if info.format = "L" then
    .ok ⟨imf, pathName, .uint32_t, capacity, doConversion, doScaling,
      if stride = 0 then sizeof .uint32_t else stride⟩
  else if info.format = "q" then
    .ok ⟨imf, pathName, .int64_t, capacity, doConversion, doScaling,
      if stride = 0 then sizeof .int64_t else stride⟩
  else if info.format = "?" then
    .ok ⟨imf, pathName, .bool, capacity, doConversion, doScaling,
      if stride = 0 then sizeof .bool else stride⟩
  else if info.format = "f" then
    .ok ⟨imf, pathName, .float, capacity, doConversion, doScaling,
      if stride = 0 then sizeof .float else stride⟩
  else if info.format = "d" then
    .ok ⟨imf, pathName, .double, capacity, doConversion, doScaling,
      if stride = 0 then sizeof .double else stride⟩
  else
    .error (.value_error "Incompatible type (integers: bBhHlLq, bool: ?, floats: fd)")

/-- The Python call `SourceDestBuffer(destImageFile, pathName, b, capacity,
doConversion=False, doScaling=False, stride=0)`: the lambda with the keyword
defaults of wrapper line 298 filled in for the arguments left out (`none`). -/
def SourceDestBuffer.__init__ (destImageFile : ImageFile) (pathName : String)
    (b : buffer_info) (capacity : Nat) (doConversion doScaling : Option Bool)
    (stride : Option Nat) : Except Raised SourceDestBuffer :=
  SourceDestBuffer.init destImageFile pathName b capacity
    (doConversion.getD false) (doScaling.getD false) (stride.getD 0)

/-- The ten format strings the lambda accepts, in source order. -/
def acceptedFormats : List String :=
  ["b", "B", "h", "H", "l", "L", "q", "?", "f", "d"]

/-- The format character under which the lambda binds each element type
(wrapper lines 275-294, read from the cast back to the format); no branch
casts to `uint64_t`. -/
def CType.format : CType → Option String
  | .int8_t => some "b"
  | .uint8_t => some "B"
  | .int16_t => some "h"
  | .uint16_t => some "H"
  | .int32_t => some "l"
  | .uint32_t => some "L"
  | .int64_t => some "q"
  | .uint64_t => none
  | .bool => some "?"
  | .float => some "f"
  | .double => some "d"

/-- The natural element size in bytes per format character, as the stride
claim lists it: 1 for b, B and ?, 2 for h and H, 4 for l, L and f, 8 for q
and d. -/
def naturalSize (format : String) : Nat :=
  if format = "b" ∨ format = "B" ∨ format = "?" then 1
  else if format = "h" ∨ format = "H" then 2
  else if format = "l" ∨ format = "L" ∨ format = "f" then 4
  else if format = "q" ∨ format = "d" then 8
  else 0

/-! ## The element kind of a buffer -/

/-- The C data model of the platform the module is built for.  What differs
here is the width of `long`: 64 bits under LP64 (Linux, macOS), 32 bits under
LLP64 (64-bit Windows). -/
inductive DataModel where
  | LP64
  | LLP64
  deriving DecidableEq, Repr

/-- The element type that a format character of `py::buffer_info::format`
stands for.  The table is that of the Python buffer protocol (the native type
codes of the `struct` module), which the producer of the buffer follows; it is
not read from the wrapper.  `b`/`B` are `signed`/`unsigned char`, `h`/`H`
`short`, `i`/`I` `int`, `l`/`L` `long` (whose width is the data model's),
`q`/`Q` `long long`, `n`/`N` `ssize_t`/`size_t`, `?` `_Bool`, `f` `float`,
`d` `double`; any other code stands for no element kind of the closed set. -/
def elementKind (dm : DataModel) (format : String) : Option CType :=
  if format = "b" then some .int8_t
  else if format = "B" then some .uint8_t
  else if format = "h" then some .int16_t
  else if format = "H" then some .uint16_t
  else if format = "i" then some .int32_t
  else if format = "I" then some .uint32_t
  else if format = "l" then
    some (match dm with
      | .LP64 => .int64_t
      | .LLP64 => .int32_t)
  else if format = "L" then
    some (match dm with
      | .LP64 => .uint64_t
      | .LLP64 => .uint32_t)
  else if format = "q" then some .int64_t
  else if format = "Q" then some .uint64_t
  else if format = "n" then some .int64_t
  else if format = "N" then some .uint64_t
  else if format = "?" then some .bool
  else if format = "f" then some .float
  else if format = "d" then some .double
  else none

/-- The element kinds of the spec's closed set other than the 32-bit integers
and unsigned 64-bit: signed and unsigned 8- and 16-bit integers, signed 64-bit
integers, boolean, 32- and 64-bit float. -/
def fixedElementKinds : List CType :=
  [.int8_t, .uint8_t, .int16_t, .uint16_t, .int64_t, .bool, .float, .double]

/-- The format characters that stand for one of those kinds whatever the data
model, one per kind in the same order. -/
def fixedFormats : List String :=
  ["b", "B", "h", "H", "q", "?", "f", "d"]

/-! ## Attaching children: `StructureNode.set` and `VectorNode.append` -/

/-- A call forwarded to the library by an attachment lambda. -/
inductive LibCall where
  | set (node : StructureNode) (pathName : String) (n : Node)
  | append (v : VectorNode) (node : Node)
  deriving DecidableEq, Repr

/-- The class-instance argument caster of pybind11 for a parameter of a
registered class: an object is accepted when it is an instance of that class.
The node classes are registered with no base class and no implicit
conversion, so only the class itself qualifies. -/
def loadsAs (param : PyClass) (arg : PyNode) : Bool :=
  decide (arg.cls = param)

/-- The child parameter classes of the overloads registered as
`StructureNode.set`, in registration order (wrapper lines 179-199). -/
def StructureNode.set_overloads : List PyClass :=
  [.StructureNode, .VectorNode, .CompressedVectorNode, .IntegerNode,
   .ScaledIntegerNode, .FloatNode, .StringNode]

/-- The child parameter classes of the overloads registered as
`VectorNode.append`, in registration order (wrapper lines 231-237). -/
def VectorNode.append_overloads : List PyClass :=
  [.StructureNode, .VectorNode, .CompressedVectorNode, .IntegerNode,
   .ScaledIntegerNode, .FloatNode, .StringNode]

/-- The Python call `StructureNode.set(pathName, n)`: the dispatcher tries the
registered overloads in order; the first one whose parameter accepts `n` runs
its body `node.set(pathName, n)`; when none accepts, `TypeError`. -/
def StructureNode.set (node : StructureNode) (pathName : String) (n : PyNode) :
    Except Raised LibCall :=
  match StructureNode.set_overloads.find? (fun param => loadsAs param n) with
  | some _ => .ok (.set node pathName n.node)
  | none => .error .type_error

/-- The Python call `VectorNode.append(node)`, dispatched the same way; each
body is `v.append(node)`. -/
def VectorNode.append (v : VectorNode) (node : PyNode) : Except Raised LibCall :=
  match VectorNode.append_overloads.find? (fun param => loadsAs param node) with
  | some _ => .ok (.append v node.node)
  | none => .error .type_error

/-! ## Numeric arguments and the `ScaledIntegerNode` constructors -/

/-- A C++ `double`, as its IEEE-754 binary64 bit pattern. -/
structure Double where
  bits : Nat
  deriving DecidableEq, Repr

/-- The default `scale`, the double 1.0. -/
def Double.one : Double := ⟨0x3FF0000000000000⟩

/-- The default `offset`, the double 0.0. -/
def Double.zero : Double := ⟨0⟩

/-- A numeric Python argument: an `int` (unbounded) or a `float`. -/
inductive PyArg where
  | int (v : Int)
  | float (d : Double)
  deriving DecidableEq, Repr

/-- The arithmetic caster of pybind11 for an `int64_t` parameter: a Python
float is never accepted; a Python int is accepted when it fits. -/
def load_int64_t (a : PyArg) : Option Int :=
  match a with
  | .int v => if INT64_MIN ≤ v ∧ v ≤ INT64_MAX then some v else none
  | .float _ => none

/-- The arithmetic caster of pybind11 for an `int` (32-bit) parameter. -/
def load_int (a : PyArg) : Option Int :=
  match a with
  | .int v => if INT32_MIN ≤ v ∧ v ≤ INT32_MAX then some v else none
  | .float _ => none

/-- The arithmetic caster of pybind11 for a `double` parameter: a Python float
is accepted as it is; a Python int only when conversions are allowed, through
`PyFloat_AsDouble` (a parameter: it is CPython's, and fails on overflow). -/
def load_double (PyFloat_AsDouble : Int → Option Double) (convert : Bool) (a : PyArg) :
    Option Double :=
  match a with
  | .float d => some d
  | .int v => if convert then PyFloat_AsDouble v else none

/-- The library constructor chosen by a `ScaledIntegerNode(...)` call, with
the converted arguments it receives: one case per registered `py::init`
(wrapper lines 379-382). -/
inductive ScaledIntegerNodeCtor where
  | int64_int64_int64 (value minimum maximum : Int) (scale offset : Double)
  | int_int64_int64 (value minimum maximum : Int) (scale offset : Double)
  | int_int_int (value minimum maximum : Int) (scale offset : Double)
  | double_double_double (scaledValue scaledMinimum scaledMaximum scale offset : Double)
  deriving DecidableEq, Repr

/-- The five numeric arguments of a `ScaledIntegerNode(...)` call after the
keyword defaults `scale=1.0`, `offset=0.0` are filled in. -/
structure ScaledIntegerArgs where
  value : PyArg
  minimum : PyArg
  maximum : PyArg
  scale : PyArg
  offset : PyArg
  deriving DecidableEq, Repr

/-- The first registered overload (line 379), tried with or without
conversions. -/
def ScaledIntegerNode.overload1 (toD : Int → Option Double) (convert : Bool)
    (a : ScaledIntegerArgs) : Option ScaledIntegerNodeCtor := do
  let value ← load_int64_t a.value
  let minimum ← load_int64_t a.minimum
  let maximum ← load_int64_t a.maximum
  let scale ← load_double toD convert a.scale
  let offset ← load_double toD convert a.offset
  pure (.int64_int64_int64 value minimum maximum scale offset)

/-- The second registered overload (line 380). -/
def ScaledIntegerNode.overload2 (toD : Int → Option Double) (convert : Bool)
    (a : ScaledIntegerArgs) : Option ScaledIntegerNodeCtor := do
  let value ← load_int a.value
  let minimum ← load_int64_t a.minimum
  let maximum ← load_int64_t a.maximum
  let scale ← load_double toD convert a.scale
  let offset ← load_double toD convert a.offset
  pure (.int_int64_int64 value minimum maximum scale offset)

/-- The third registered overload (line 381). -/
def ScaledIntegerNode.overload3 (toD : Int → Option Double) (convert : Bool)
    (a : ScaledIntegerArgs) : Option ScaledIntegerNodeCtor := do
  let value ← load_int a.value
  let minimum ← load_int a.minimum
  let maximum ← load_int a.maximum
  let scale ← load_double toD convert a.scale
  let offset ← load_double toD convert a.offset
  pure (.int_int_int value minimum maximum scale offset)

/-- The fourth registered overload (line 382). -/
def ScaledIntegerNode.overload4 (toD : Int → Option Double) (convert : Bool)
    (a : ScaledIntegerArgs) : Option ScaledIntegerNodeCtor := do
  let scaledValue ← load_double toD convert a.value
  let scaledMinimum ← load_double toD convert a.minimum
  let scaledMaximum ← load_double toD convert a.maximum
  let scale ← load_double toD convert a.scale
  let offset ← load_double toD convert a.offset
  pure (.double_double_double scaledValue scaledMinimum scaledMaximum scale offset)

/-- The four overloads in registration order. -/
def ScaledIntegerNode.overloads (toD : Int → Option Double) :
    List (Bool → ScaledIntegerArgs → Option ScaledIntegerNodeCtor) :=
  [ScaledIntegerNode.overload1 toD, ScaledIntegerNode.overload2 toD,
   ScaledIntegerNode.overload3 toD, ScaledIntegerNode.overload4 toD]

/-- The overload resolution of pybind11 for the Python call
`ScaledIntegerNode(destImageFile, value, minimum, maximum, scale=1.0,
offset=0.0)`: a first pass over the overloads in registration order without
conversions, then a second pass with conversions, then `TypeError`. -/
def ScaledIntegerNode.__init__ (toD : Int → Option Double) (value minimum maximum : PyArg)
    (scale offset : Option PyArg) : Except Raised ScaledIntegerNodeCtor :=
  let a : ScaledIntegerArgs :=
    { value := value, minimum := minimum, maximum := maximum,
      scale := scale.getD (.float Double.one), offset := offset.getD (.float Double.zero) }
  match (ScaledIntegerNode.overloads toD).findSome? (fun ov => ov false a) with
  | some c => .ok c
  | none =>
    match (ScaledIntegerNode.overloads toD).findSome? (fun ov => ov true a) with
    | some c => .ok c
    | none => .error .type_error

/-- Whether a chosen constructor is one of the three raw-integer ones. -/
def ScaledIntegerNodeCtor.isRaw : ScaledIntegerNodeCtor → Bool
  | .double_double_double .. => false
  | _ => true

/-! ## Bounded integer nodes -/

/-- An `IntegerNode` as its accessors `value()`, `minimum()`, `maximum()`
(wrapper lines 363-365) report it. -/
structure IntegerNode where
  value : Int
  minimum : Int
  maximum : Int
  deriving DecidableEq, Repr

/-- Modelled from the spec: the library constructor `IntegerNode(ImageFile,
int64_t, int64_t, int64_t)` is not in the wrapper.  The spec: "Integer stores a
64-bit value within an inclusive [minimum, maximum] range set at construction;
out-of-range construction or assignment fails with ValueOutOfBounds". -/
def IntegerNode.ctor (_destImageFile : ImageFile) (value minimum maximum : Int) :
    Except Raised IntegerNode :=
  if value < minimum ∨ maximum < value then
    .error (.e57 (E57_EXCEPTION .E57_ERROR_VALUE_OUT_OF_BOUNDS))
  else .ok { value := value, minimum := minimum, maximum := maximum }

/-- The Python call `IntegerNode(destImageFile, value=0, minimum=INT64_MIN,
maximum=INT64_MAX)` (wrapper line 362), keyword defaults filled in. -/
def IntegerNode.__init__ (destImageFile : ImageFile) (value minimum maximum : Option Int) :
    Except Raised IntegerNode :=
  IntegerNode.ctor destImageFile (value.getD 0) (minimum.getD INT64_MIN)
    (maximum.getD INT64_MAX)

/-- A `ScaledIntegerNode` as its accessors `rawValue()`, `minimum()`,
`maximum()`, `scale()`, `offset()` (wrapper lines 383-390) report it. -/
structure ScaledIntegerNode where
  rawValue : Int
  minimum : Int
  maximum : Int
  scale : Double
  offset : Double
  deriving DecidableEq, Repr

/-- Modelled from the spec: the library's raw-integer constructor of
`ScaledIntegerNode` is not in the wrapper.  The spec: "constructing or
assigning a value outside [minimum, maximum] (raw or scaled) fails with the
corresponding bound-violation kind; values at the exact boundary succeed". -/
def ScaledIntegerNode.ctor (_destImageFile : ImageFile) (rawValue minimum maximum : Int)
    (scale offset : Double) : Except Raised ScaledIntegerNode :=
  if rawValue < minimum ∨ maximum < rawValue then
    .error (.e57 (E57_EXCEPTION .E57_ERROR_VALUE_OUT_OF_BOUNDS))
  else
    .ok { rawValue := rawValue, minimum := minimum, maximum := maximum,
          scale := scale, offset := offset }

/-- Constructing a `ScaledIntegerNode` from Python: the overload resolution,
then the library constructor it selected.  The library's scaled-double
constructor rounds in floating point and is a parameter. -/
def ScaledIntegerNode.construct (toD : Int → Option Double)
    (ctor_scaled : ImageFile → Double → Double → Double → Double → Double →
      Except Raised ScaledIntegerNode)
    (destImageFile : ImageFile) (value minimum maximum : PyArg)
    (scale offset : Option PyArg) : Except Raised ScaledIntegerNode :=
  match ScaledIntegerNode.__init__ toD value minimum maximum scale offset with
  | .error e => .error e
  | .ok (.int64_int64_int64 v mn mx s o) => ScaledIntegerNode.ctor destImageFile v mn mx s o
  | .ok (.int_int64_int64 v mn mx s o) => ScaledIntegerNode.ctor destImageFile v mn mx s o
  | .ok (.int_int_int v mn mx s o) => ScaledIntegerNode.ctor destImageFile v mn mx s o
  | .ok (.double_double_double sv smn smx s o) => ctor_scaled destImageFile sv smn smx s o

/-! ## Comparing doubles and the scaled constructor -/

/-- Whether a double is a NaN: the exponent bits are all ones and the fraction
is not zero. -/
def Double.isNaN (d : Double) : Bool :=
  decide (0x7FF0000000000000 < d.bits % 2 ^ 63)

/-- The place of a double that is not a NaN among the integers, ordered as the
doubles are: the exponent and fraction bits read as a number, negated when
the sign bit is set, so that -0.0 and 0.0 share a place. -/
def Double.key (d : Double) : Int :=
  if d.bits / 2 ^ 63 % 2 = 1 then -((d.bits % 2 ^ 63 : Nat) : Int)
  else ((d.bits % 2 ^ 63 : Nat) : Int)

/-- The C++ operator `<` on two doubles.  The comparison of IEEE-754 is exact
(nothing is rounded): it is false when either side is a NaN, and otherwise
the order of the two values. -/
def Double.lt (a b : Double) : Bool :=
  !a.isNaN && !b.isNaN && decide (a.key < b.key)

/-- Modelled from the spec: the library's scaled-double constructor
`ScaledIntegerNode(ImageFile, double, double, double, double, double)` is not
in the wrapper.  The spec: "construction may supply either a raw integer range
or a bounded scaled-double range, the latter computing the nearest
representable raw range — if the scaled value cannot be represented, fails
with ScaledValueNotRepresentable", and "constructing or assigning a value
outside [minimum, maximum] (raw or scaled) fails with the corresponding
bound-violation kind; values at the exact boundary succeed".  The bound is
tested on the scaled values as given, so that every value outside fails with
the bound violation.  Computing the nearest raw integer is floating-point
arithmetic and is the parameter `nearestRaw` (scaled value, scale, offset),
`none` when the scaled value cannot be represented. -/
def ScaledIntegerNode.ctor_scaled (nearestRaw : Double → Double → Double → Option Int)
    (_destImageFile : ImageFile)
    (scaledValue scaledMinimum scaledMaximum scale offset : Double) :
    Except Raised ScaledIntegerNode :=
  if Double.lt scaledValue scaledMinimum = true ∨ Double.lt scaledMaximum scaledValue = true then
    .error (.e57 (E57_EXCEPTION .E57_ERROR_VALUE_OUT_OF_BOUNDS))
  else
    match nearestRaw scaledValue scale offset, nearestRaw scaledMinimum scale offset,
        nearestRaw scaledMaximum scale offset with
    | some rawValue, some minimum, some maximum =>
      .ok { rawValue := rawValue, minimum := minimum, maximum := maximum,
            scale := scale, offset := offset }
    | _, _, _ => .error (.e57 (E57_EXCEPTION .E57_ERROR_SCALED_VALUE_NOT_REPRESENTABLE))

/-! ## The element types and `MemoryRepresentation` -/

/-- Modelled from the spec: the library's `SourceDestBuffer` constructors, which
record the memory representation of the pointer type they are given, are not
in the wrapper.  Each non-string `MemoryRepresentation` is named for one
element kind of the spec's closed set ("signed/unsigned 8/16/32/64-bit
integers, boolean, 32/64-bit float"); none is named for unsigned 64-bit. -/
def CType.memoryRepresentation : CType → Option MemoryRepresentation
  | .int8_t => some .E57_INT8
  | .uint8_t => some .E57_UINT8
  | .int16_t => some .E57_INT16
  | .uint16_t => some .E57_UINT16
  | .int32_t => some .E57_INT32
  | .uint32_t => some .E57_UINT32
  | .int64_t => some .E57_INT64
  | .uint64_t => none
  | .bool => some .E57_BOOL
  | .float => some .E57_REAL32
  | .double => some .E57_REAL64

/-! ## BlobNode -/

/-- A Python object exposing the buffer protocol: what `request()` reports of
it and the elements it holds. -/
structure PyBuffer where
  info : buffer_info
  data : List Nat
  deriving DecidableEq, Repr

/-- Modelled from the spec: the library's `BlobNode` is not in the wrapper.  The
spec: a Blob is an "opaque byte range of known length". -/
structure BlobNode where
  bytes : List Nat
  deriving DecidableEq, Repr

/-- Modelled from the spec: the library's `BlobNode::byteCount()`, an `int64_t`,
is not in the wrapper; it is the "known length" of the byte range. -/
def BlobNode.byteCount (node : BlobNode) : Int := node.bytes.length

/-- The conversion `static_cast<size_t>` of an `ssize_t` (64-bit). -/
def size_t_of (x : Int) : Nat := (x % 2 ^ 64).toNat

/-- The element `info.shape[0]`; the shape of a one-dimensional buffer has
exactly this element. -/
def buffer_info.shape0 (info : buffer_info) : Int := info.shape.headD 0

/-- Modelled from the spec: the library's `BlobNode::read(uint8_t*, int64_t,
size_t)` is not in the wrapper.  The spec: a Blob is an "opaque byte range of
known length"; a transfer of `count` bytes from offset `start` inside that
range lands at the front of the caller's memory, and one reaching outside the
range is a bad API argument. -/
def BlobNode.lib_read (node : BlobNode) (mem : List Nat) (start : Int) (count : Nat) :
    Except Raised (List Nat) :=
  if start < 0 ∨ node.byteCount < start + count then
    .error (.e57 (E57_EXCEPTION .E57_ERROR_BAD_API_ARGUMENT))
  else .ok ((node.bytes.drop start.toNat).take count ++ mem.drop count)

/-- Modelled from the spec: the library's `BlobNode::write(uint8_t*, int64_t,
size_t)` is not in the wrapper; the mirror image of `lib_read` on the same
"opaque byte range of known length". -/
def BlobNode.lib_write (node : BlobNode) (mem : List Nat) (start : Int) (count : Nat) :
    Except Raised BlobNode :=
  if start < 0 ∨ node.byteCount < start + count then
    .error (.e57 (E57_EXCEPTION .E57_ERROR_BAD_API_ARGUMENT))
  else
    .ok ⟨node.bytes.take start.toNat ++ mem.take count ++
      node.bytes.drop (start.toNat + count)⟩

/-- A transfer the wrapper asks of the library. -/
inductive BlobCall where
  | read (start : Int) (count : Nat)
  | write (start : Int) (count : Nat)
  deriving DecidableEq, Repr

/-- The number of bytes a transfer moves. -/
def BlobCall.count : BlobCall → Nat
  | .read _ count => count
  | .write _ count => count

/-- What a `BlobNode.read` / `BlobNode.write` call leaves behind: the library
transfers it asked for, the exception it raised if any, and the blob and the
buffer afterwards. -/
structure BlobOutcome where
  libCalls : List BlobCall
  raised : Option Raised
  node : BlobNode
  buf : PyBuffer
  deriving DecidableEq, Repr

/-- The lambda bound as `BlobNode.read` (wrapper lines 439-455). -/
def BlobNode.read (node : BlobNode) (buf : PyBuffer) (start : Int) (count : Nat) :
    BlobOutcome :=
  let info := buf.info
  if info.ndim ≠ 1 then
    ⟨[], some (.runtime_error "Incompatible buffer dimension!"), node, buf⟩
  else if info.format ≠ "B" then
    ⟨[], some (.runtime_error "Incompatible buffer type!"), node, buf⟩
  else if size_t_of info.shape0 < count then
    ⟨[], some (.runtime_error "Buffer not large enough to read."), node, buf⟩
  else
    match node.lib_read buf.data start count with
    | .ok mem => ⟨[.read start count], none, node, { buf with data := mem }⟩
    | .error e => ⟨[.read start count], some e, node, buf⟩

/-- The lambda bound as `BlobNode.write` (wrapper lines 456-472). -/
def BlobNode.write (node : BlobNode) (buf : PyBuffer) (start : Int) (count : Nat) :
    BlobOutcome :=
  let info := buf.info
  if info.ndim ≠ 1 then
    ⟨[], some (.runtime_error "Incompatible buffer dimension!"), node, buf⟩
  else if info.format ≠ "B" then
    ⟨[], some (.runtime_error "Incompatible buffer type!"), node, buf⟩
  else if size_t_of info.shape0 < count then
    ⟨[], some (.runtime_error "Buffer not large enough to write."), node, buf⟩
  else
    match node.lib_write buf.data start count with
    | .ok node2 => ⟨[.write start count], none, node2, buf⟩
    | .error e => ⟨[.write start count], some e, node, buf⟩

/-- The state an object is left in by a call: the new state when the call
returned, the old one when it raised. -/
def stateAfter {σ : Type} (old : σ) (result : Except Raised σ) : σ :=
  match result with
  | .ok s => s
  | .error _ => old

/-! ## The node tree

`StructureNode.set`, `VectorNode.append` and `isAttached` forward to the
library (wrapper lines 166, 179-206, 231-244); what attaching does is the
library's.  The tree of this section is modelled from the spec (§3, §4.1):
nodes are entries of the container's node table, named by their index. -/

/-- Modelled from the spec: the library's node objects are not in the wrapper.
One node of the typed node tree: its variant, its element name, its parent if it has one ("every non-root node has exactly one
parent"), its ordered children, and for a Vector whether it is "optionally
homogeneous-typed". -/
structure NodeImpl where
  type : NodeType
  elementName : String
  parent : Option Nat
  children : List Nat
  allowHeteroChildren : Bool
  deriving DecidableEq, Repr

/-- Modelled from the spec: the library's container state is not in the wrapper.
The spec models the back-references of nodes as "an index/id into the
container's node table"; this is that table, with the root's index. -/
structure NodeTree where
  root : Nat
  nodes : List NodeImpl
  deriving DecidableEq, Repr

/-- Modelled from the spec: the library's `parent()` is not in the wrapper; the
parent of a node, if it has one. -/
def NodeTree.parentOf (t : NodeTree) (n : Nat) : Option Nat :=
  (t.nodes[n]?).bind (fun x => x.parent)

/-- One step towards the root: the parent, or the node itself when it has
none. -/
def NodeTree.up (t : NodeTree) (n : Nat) : Nat :=
  (t.parentOf n).getD n

/-- Modelled from the spec: the library's `isAttached()` is not in the wrapper.
The spec: "a node is either attached (reachable from the container's root) or
detached": following parents, for as many steps as the
table has nodes, arrives at the root.  This is what `isAttached()` reports. -/
def NodeTree.isAttached (t : NodeTree) (n : Nat) : Bool :=
  decide ((t.up)^[t.nodes.length] n = t.root)

/-- Modelled from the spec: the library's `type()` is not in the wrapper; the
variant of a node. -/
def NodeTree.typeOf (t : NodeTree) (n : Nat) : Option NodeType :=
  (t.nodes[n]?).map (fun x => x.type)

/-- Modelled from the spec: the ordered children of a Structure ("ordered
mapping of named children") or Vector ("ordered sequence of children"), which
the library keeps and the wrapper does not. -/
def NodeTree.childrenOf (t : NodeTree) (n : Nat) : List Nat :=
  ((t.nodes[n]?).map (fun x => x.children)).getD []

/-- Modelled from the spec: the library's `childCount()` is not in the wrapper;
the number of children. -/
def NodeTree.childCount (t : NodeTree) (n : Nat) : Int :=
  (t.childrenOf n).length

/-- Modelled from the spec: the library's `allowHeteroChildren()` is not in the
wrapper; whether a Vector is not "homogeneous-typed". -/
def NodeTree.allowHeteroChildren (t : NodeTree) (v : Nat) : Bool :=
  ((t.nodes[v]?).map (fun x => x.allowHeteroChildren)).getD false

/-- Modelled from the spec: the library's `isDefined(pathName)` is not in the
wrapper; "the path is already defined" when some child carries that name. -/
def NodeTree.isDefined (t : NodeTree) (n : Nat) (pathName : String) : Bool :=
  (t.childrenOf n).any
    (fun c => decide ((t.nodes[c]?).map (fun x => x.elementName) = some pathName))

/-- Change the entry at an index of a list, if there is one. -/
def modifyAt {α : Type} (l : List α) (i : Nat) (f : α → α) : List α :=
  match l[i]? with
  | some a => l.set i (f a)
  | none => l

/-- Modelled from the spec: what a successful `set` or `append` of the library
(not in the wrapper) does to the tree: the child records its one parent and
its name, the parent gains the child as its last. -/
def NodeTree.link (t : NodeTree) (parent child : Nat) (name : String) : NodeTree :=
  let linked := modifyAt t.nodes child
    (fun c => { c with parent := some parent, elementName := name })
  { root := t.root,
    nodes := modifyAt linked parent (fun p => { p with children := p.children ++ [child] }) }

/-- Modelled from the spec: the library's `StructureNode::set` is not in the
wrapper.  The spec: "set a named child on a Structure ... (fails with
AlreadyHasParent if the child is attached elsewhere, ..., SetTwice if the path
is already defined)", the conditions taken in the order the spec lists them;
a node that has a parent or is attached "cannot be attached again". -/
def NodeTree.lib_set (t : NodeTree) (node : Nat) (pathName : String) (n : Nat) :
    Except Raised NodeTree :=
  if (t.parentOf n).isSome ∨ t.isAttached n = true then
    .error (.e57 (E57_EXCEPTION .E57_ERROR_ALREADY_HAS_PARENT))
  else if t.isDefined node pathName = true then
    .error (.e57 (E57_EXCEPTION .E57_ERROR_SET_TWICE))
  else .ok (t.link node n pathName)

/-- Modelled from the spec: the homogeneity test of the library's `append` (not
in the wrapper): "appending a child of a different concrete type than the
first child" to a vector that does not allow heterogeneous children. -/
def NodeTree.violatesHomogeneity (t : NodeTree) (v n : Nat) : Bool :=
  match (t.childrenOf v).head? with
  | some first => !t.allowHeteroChildren v && decide (t.typeOf n ≠ t.typeOf first)
  | none => false

/-- Modelled from the spec: the library's `VectorNode::append` is not in the
wrapper.  The spec: "append to a Vector (fails with AlreadyHasParent if
the child is attached elsewhere, HomogeneityViolation if appended to a
homogeneous Vector whose element type differs ...)", the conditions taken in
the order the spec lists them; the new child is named by its index. -/
def NodeTree.lib_append (t : NodeTree) (v : Nat) (n : Nat) : Except Raised NodeTree :=
  if (t.parentOf n).isSome ∨ t.isAttached n = true then
    .error (.e57 (E57_EXCEPTION .E57_ERROR_ALREADY_HAS_PARENT))
  else if t.violatesHomogeneity v n = true then
    .error (.e57 (E57_EXCEPTION .E57_ERROR_HOMOGENEOUS_VIOLATION))
  else .ok (t.link v n (toString (t.childrenOf v).length))

/-- Modelled from the spec: the library's node constructors are not in the
wrapper.  The spec: "construct each scalar/container variant bound to a
container (detached)": a new entry with no parent and no children; its
index is returned. -/
def NodeTree.construct (t : NodeTree) (type : NodeType) (allowHeteroChildren : Bool) :
    NodeTree × Nat :=
  ({ t with nodes := t.nodes ++
      [{ type := type, elementName := "", parent := none, children := [],
         allowHeteroChildren := allowHeteroChildren }] },
   t.nodes.length)

/-- A Python object wrapping a node of the tree: its registered class and the
node's index. -/
structure PyRef where
  cls : PyClass
  id : Nat
  deriving DecidableEq, Repr

/-- The generic handle of a node of the tree. -/
def NodeTree.node (t : NodeTree) (n : Nat) : Node :=
  match t.nodes[n]? with
  | some x => { type := x.type, elementName := x.elementName }
  | none => { type := .E57_STRUCTURE, elementName := "" }

/-- The `StructureNode` handle of a node of the tree. -/
def NodeTree.structureNode (t : NodeTree) (n : Nat) : StructureNode :=
  { self := t.node n, children := (t.childrenOf n).map t.node }

/-- The `VectorNode` handle of a node of the tree. -/
def NodeTree.vectorNode (t : NodeTree) (n : Nat) : VectorNode :=
  { self := t.node n, allowHeteroChildren := t.allowHeteroChildren n,
    children := (t.childrenOf n).map t.node }

/-- The Python call `node.set(pathName, n)` on the tree: the overloads of
`StructureNode.set` (wrapper lines 179-199) are tried, and the one accepting
`n` forwards to the library's `set`. -/
def NodeTree.set (t : NodeTree) (node : Nat) (pathName : String) (n : PyRef) :
    Except Raised NodeTree :=
  match StructureNode.set (t.structureNode node) pathName ⟨n.cls, t.node n.id⟩ with
  | .ok _ => t.lib_set node pathName n.id
  | .error e => .error e

/-- The Python call `v.append(node)` on the tree: the overloads of
`VectorNode.append` (wrapper lines 231-237) are tried, and the one accepting
`node` forwards to the library's `append`. -/
def NodeTree.append (t : NodeTree) (v : Nat) (node : PyRef) : Except Raised NodeTree :=
  match VectorNode.append (t.vectorNode v) ⟨node.cls, t.node node.id⟩ with
  | .ok _ => t.lib_append v node.id
  | .error e => .error e

/-- The Python call `VectorNode(destImageFile, allowHeteroChildren=False)`
(wrapper line 224), the keyword default filled in when the argument is left
out. -/
def VectorNode.__init__ (t : NodeTree) (allowHeteroChildren : Option Bool) :
    NodeTree × PyRef :=
  ((t.construct .E57_VECTOR (allowHeteroChildren.getD false)).1,
   { cls := .VectorNode, id := (t.construct .E57_VECTOR (allowHeteroChildren.getD false)).2 })

/-- An operation on the tree made from Python. -/
inductive TreeOp where
  | construct (type : NodeType) (allowHeteroChildren : Bool)
  | set (node : Nat) (pathName : String) (n : PyRef)
  | append (v : Nat) (node : PyRef)
  deriving DecidableEq, Repr

/-- The node an operation tries to attach, if it is an attachment. -/
def TreeOp.child : TreeOp → Option Nat
  | .construct _ _ => none
  | .set _ _ n => some n.id
  | .append _ node => some node.id

/-- The tree after an operation; an operation that raises leaves it as it
was. -/
def NodeTree.step (t : NodeTree) : TreeOp → NodeTree
  | .construct type allowHeteroChildren => (t.construct type allowHeteroChildren).1
  | .set node pathName n => stateAfter t (t.set node pathName n)
  | .append v node => stateAfter t (t.append v node)

/-- The tree after a sequence of operations. -/
def NodeTree.run (t : NodeTree) (ops : List TreeOp) : NodeTree :=
  ops.foldl NodeTree.step t

/-- Whether the table is consistent: the root is an entry without parent, and
every recorded parent is an entry. -/
def NodeTree.wellFormed (t : NodeTree) : Bool :=
  decide (t.root < t.nodes.length) && (t.parentOf t.root).isNone &&
    t.nodes.all (fun x =>
      match x.parent with
      | some p => decide (p < t.nodes.length)
      | none => true)

/-- Modelled from the spec: the library's `ImageFile` constructor is not in the
wrapper.  The spec: a container is "created on ... create (empty root
Structure)": the table holds the root alone. -/
def NodeTree.create : NodeTree :=
  { root := 0,
    nodes := [{ type := .E57_STRUCTURE, elementName := "", parent := none, children := [],
                allowHeteroChildren := false }] }

/-- A small tree used to exercise the operations: the root Structure, a
detached homogeneous Vector holding one Integer, and two detached nodes, an
Integer and a Float. -/
def sampleTree : NodeTree :=
  { root := 0,
    nodes :=
      [{ type := .E57_STRUCTURE, elementName := "", parent := none, children := [],
         allowHeteroChildren := false },
       { type := .E57_VECTOR, elementName := "", parent := none, children := [2],
         allowHeteroChildren := false },
       { type := .E57_INTEGER, elementName := "0", parent := some 1, children := [],
         allowHeteroChildren := false },
       { type := .E57_INTEGER, elementName := "", parent := none, children := [],
         allowHeteroChildren := false },
       { type := .E57_FLOAT, elementName := "", parent := none, children := [],
         allowHeteroChildren := false }] }

/-! ## The compressed-vector record stream

The reader and writer classes are bound by plain forwarding (wrapper lines
320-348); what they do is the library's.  The definitions of this section are
modelled from the spec's description of the codec (§4.4) for the prototype
`{a: Integer[0,1023], b: Float64}` of its round-trip law. -/

/-- An `n`-bit field holding a natural number, least significant bit first. -/
def toBits : Nat → Nat → List Bool
  | 0, _ => []
  | n + 1, x => (x % 2 == 1) :: toBits n (x / 2)

/-- The natural number held by a bit field, least significant bit first. -/
def ofBits : List Bool → Nat
  | [] => 0
  | b :: bs => (if b then 1 else 0) + 2 * ofBits bs

/-- Modelled from the spec: the library's bit packer is not in the wrapper.  The
spec: "integers pack as two's-complement N-bit fields". -/
def packInt (n : Nat) (v : Int) : List Bool :=
  toBits n (v % 2 ^ n).toNat

/-- Modelled from the spec: the library's bit unpacker is not in the wrapper; a
two's-complement `n`-bit field read back, the top bit being the sign. -/
def unpackInt (n : Nat) (bits : List Bool) : Int :=
  if ofBits bits < 2 ^ (n - 1) then (ofBits bits : Int) else (ofBits bits : Int) - 2 ^ n

/-- Modelled from the spec: the library's choice of field widths is not in the
wrapper.  The spec: the bit width of an Integer field is "implied by
Integer/ScaledInteger bounds": the least width whose two's-complement range
holds `[minimum, maximum]`, at most 64. -/
def bitWidth (minimum maximum : Int) : Nat :=
  match (List.range 64).find? (fun k => decide (-(2 : Int) ^ k ≤ minimum ∧ maximum < 2 ^ k)) with
  | some k => k + 1
  | none => 64

/-- Modelled from the spec: the library's float packer is not in the wrapper.
The spec: "floats pack as IEEE-754 single/double"; a double is its 64-bit
pattern. -/
def packDouble (d : Double) : List Bool := toBits 64 d.bits

/-- Modelled from the spec: the library's float unpacker is not in the wrapper;
a 64-bit pattern read back as a double. -/
def unpackDouble (bits : List Bool) : Double := ⟨ofBits bits⟩

/-- The lower bound of field `a` of the prototype. -/
def fieldA_minimum : Int := 0

/-- The upper bound of field `a` of the prototype. -/
def fieldA_maximum : Int := 1023

/-- One record of the prototype `{a: Integer[0,1023], b: Float64}`. -/
structure Record where
  a : Int
  b : Double
  deriving DecidableEq, Repr

/-- Whether a record can be held by the prototype: `a` inside its bounds and
`b` a 64-bit pattern. -/
def Record.valid (r : Record) : Bool :=
  decide (fieldA_minimum ≤ r.a ∧ r.a ≤ fieldA_maximum ∧ r.b.bits < 2 ^ 64)

/-- Cut `k` consecutive fields of `w` bits off the front of a bit stream. -/
def takeFields (w : Nat) : Nat → List Bool → List (List Bool)
  | 0, _ => []
  | k + 1, bits => bits.take w :: takeFields w k (bits.drop w)

/-- Modelled from the spec: the library's packet layout is not in the wrapper.
The spec: "each physical packet = header (packet kind, byte length) + a sequence of per-field packed sub-streams aligned to the prototype
order + trailing checksum covering the packet bytes". -/
structure Packet where
  kind : Nat
  length : Nat
  payload : List Bool
  checksum : Nat
  deriving DecidableEq, Repr

/-- The bits one record takes in a packet. -/
def recordBits : Nat := bitWidth fieldA_minimum fieldA_maximum + 64

/-- Modelled from the spec: the library's packet writer is not in the wrapper;
packing a batch of records into one data packet:
the sub-stream of field `a`, then that of field `b`, under a header and
followed by the checksum `cs` of the payload. -/
def encodePacket (cs : List Bool → Nat) (recs : List Record) : Packet :=
  let payload :=
    (recs.map (fun r => packInt (bitWidth fieldA_minimum fieldA_maximum) r.a)).flatten ++
    (recs.map (fun r => packDouble r.b)).flatten
  { kind := 1, length := (payload.length + 7) / 8, payload := payload, checksum := cs payload }

/-- Modelled from the spec: the library's packet reader is not in the wrapper;
unpacking the records of one data packet, whose number follows from the
payload length. -/
def decodePacket (p : Packet) : List Record :=
  let count := p.payload.length / recordBits
  let w := bitWidth fieldA_minimum fieldA_maximum
  let as := (takeFields w count (p.payload.take (count * w))).map (unpackInt w)
  let bs := (takeFields 64 count (p.payload.drop (count * w))).map unpackDouble
  List.zipWith Record.mk as bs

/-- Modelled from the spec: the library's reading of the binary section is not
in the wrapper: packets the checksum
policy selects (`checked`, by packet index) are verified and "fail
BadChecksum on mismatch"; the records of all packets follow one another. -/
def decodeStream (cs : List Bool → Nat) (checked : Nat → Bool) :
    Nat → List Packet → Except Raised (List Record)
  | _, [] => .ok []
  | index, p :: ps =>
    if checked index ∧ cs p.payload ≠ p.checksum then
      .error (.e57 (E57_EXCEPTION .E57_ERROR_BAD_CHECKSUM))
    else
      match decodeStream cs checked (index + 1) ps with
      | .ok rest => .ok (decodePacket p ++ rest)
      | .error e => .error e

/-- Cut a list into leading chunks of exactly `size` elements and a shorter
remainder; `fuel` bounds the number of chunks. -/
def splitFull {α : Type} (size : Nat) : Nat → List α → List (List α) × List α
  | 0, l => ([], l)
  | fuel + 1, l =>
    if 0 < size ∧ size ≤ l.length then
      ((l.take size) :: (splitFull size fuel (l.drop size)).1,
        (splitFull size fuel (l.drop size)).2)
    else ([], l)

/-- Modelled from the spec: the library's `close()` is not in the wrapper, and
the spec leaves open what closing an already-closed reader or writer does
("a no-op or fails deterministically with *NotOpen — pick one and hold it
consistently"); the choice is a parameter. -/
inductive ClosePolicy where
  | noop
  | notOpen
  deriving DecidableEq, Repr

/-- Modelled from the spec: the library's `CompressedVectorWriter` is not in the
wrapper.  The spec: "writer state
transitions Open → (zero or more writes) → Closed"; it holds the records of the
partial final packet and the packets flushed to the binary section. -/
structure CompressedVectorWriter where
  isOpen : Bool
  pending : List Record
  packets : List Packet
  deriving DecidableEq, Repr

/-- Modelled from the spec: the library's `CompressedVectorWriter::write` is not
in the wrapper.  The spec: "each `write(requestedRecordCount)` call transfers
up to `requestedRecordCount` records from the current buffer contents into the
binary section, packing each field according to its declared bit-width (values
outside an Integer/ScaledInteger's bound fail ValueOutOfBounds at pack time),
flushing complete physical packets to the container's binary section as they
fill"; "once closed, further writes fail WriterNotOpen".  `packetRecords` is
the number of records a physical packet holds. -/
def CompressedVectorWriter.write (cs : List Bool → Nat) (packetRecords : Nat)
    (w : CompressedVectorWriter) (sbufs : List Record) (requestedRecordCount : Nat) :
    Except Raised CompressedVectorWriter :=
  if ¬ w.isOpen then .error (.e57 (E57_EXCEPTION .E57_ERROR_WRITER_NOT_OPEN))
  else
    let recs := sbufs.take requestedRecordCount
    if recs.all Record.valid then
      let all := w.pending ++ recs
      let cut := splitFull packetRecords all.length all
      .ok { isOpen := true, pending := cut.2,
            packets := w.packets ++ cut.1.map (encodePacket cs) }
    else .error (.e57 (E57_EXCEPTION .E57_ERROR_VALUE_OUT_OF_BOUNDS))

/-- Modelled from the spec: the library's `CompressedVectorWriter::close` is not
in the wrapper.  The spec: "`close()` flushes any partial final packet and
commits"; closing a writer that is not open follows the close policy. -/
def CompressedVectorWriter.close (policy : ClosePolicy) (cs : List Bool → Nat)
    (w : CompressedVectorWriter) : Except Raised CompressedVectorWriter :=
  if w.isOpen then
    .ok { isOpen := false, pending := [],
          packets := w.packets ++ (if w.pending = [] then [] else [encodePacket cs w.pending]) }
  else
    match policy with
    | .noop => .ok w
    | .notOpen => .error (.e57 (E57_EXCEPTION .E57_ERROR_WRITER_NOT_OPEN))

/-- The lambda bound as `CompressedVectorWriter.__del__` (wrapper line 337):
`r.close()`. -/
def CompressedVectorWriter.__del__ (policy : ClosePolicy) (cs : List Bool → Nat)
    (r : CompressedVectorWriter) : Except Raised CompressedVectorWriter :=
  CompressedVectorWriter.close policy cs r

/-- Modelled from the spec: the library's `CompressedVectorReader` is not in the
wrapper; the spec makes it a transient cursor over the
binary payload of its node, Open until closed. -/
structure CompressedVectorReader where
  isOpen : Bool
  packets : List Packet
  recordNumber : Nat
  deriving DecidableEq, Repr

/-- Modelled from the spec: the library's `CompressedVectorReader::read` is not
in the wrapper.  The spec: "`read(buffers)` reads and unpacks up to `capacity`
records per named field into the given buffers, ... returns the actual record
count transferred (0 signals end-of-stream — not an error), validates packet
checksums ... and fails BadChecksum on mismatch"; "further reads fail
ReaderNotOpen".  The result is the records placed in the buffers (their number
is the count returned) and the reader afterwards. -/
def CompressedVectorReader.read (cs : List Bool → Nat) (checked : Nat → Bool)
    (r : CompressedVectorReader) (capacity : Nat) :
    Except Raised (List Record × CompressedVectorReader) :=
  if ¬ r.isOpen then .error (.e57 (E57_EXCEPTION .E57_ERROR_READER_NOT_OPEN))
  else
    match decodeStream cs checked 0 r.packets with
    | .error e => .error e
    | .ok all =>
      let out := (all.drop r.recordNumber).take capacity
      .ok (out, { r with recordNumber := r.recordNumber + out.length })

/-- Modelled from the spec: the library's `CompressedVectorReader::seek` is not
in the wrapper.  The spec: "`seek(recordNumber)` repositions to an arbitrary
logical record index". -/
def CompressedVectorReader.seek (r : CompressedVectorReader) (recordNumber : Nat) :
    Except Raised CompressedVectorReader :=
  if ¬ r.isOpen then .error (.e57 (E57_EXCEPTION .E57_ERROR_READER_NOT_OPEN))
  else .ok { r with recordNumber := recordNumber }

/-- Modelled from the spec: the library's `CompressedVectorReader::close` is not
in the wrapper.  The spec: "`close()` transitions Open → Closed"; closing a
reader that is not open follows the close policy. -/
def CompressedVectorReader.close (policy : ClosePolicy) (r : CompressedVectorReader) :
    Except Raised CompressedVectorReader :=
  if r.isOpen then .ok { r with isOpen := false }
  else
    match policy with
    | .noop => .ok r
    | .notOpen => .error (.e57 (E57_EXCEPTION .E57_ERROR_READER_NOT_OPEN))

/-- The lambda bound as `CompressedVectorReader.__del__` (wrapper line 328):
`r.close()`. -/
def CompressedVectorReader.__del__ (policy : ClosePolicy) (r : CompressedVectorReader) :
    Except Raised CompressedVectorReader :=
  CompressedVectorReader.close policy r

/-- Modelled from the spec: the library's `CompressedVectorNode` is not in the
wrapper; here it is the packets of its binary payload. -/
structure CompressedVectorNode where
  packets : List Packet
  deriving DecidableEq, Repr

/-- Modelled from the spec: the library's `CompressedVectorNode::writer` is not
in the wrapper; it opens a writer on the node's payload. -/
def CompressedVectorNode.writer (node : CompressedVectorNode) : CompressedVectorWriter :=
  { isOpen := true, pending := [], packets := node.packets }

/-- Modelled from the spec: the library's `CompressedVectorNode::reader` is not
in the wrapper; it opens a fresh reader at the first record of the node's
payload. -/
def CompressedVectorNode.reader (node : CompressedVectorNode) : CompressedVectorReader :=
  { isOpen := true, packets := node.packets, recordNumber := 0 }

/-- The caller's writing loop: the buffers are refilled with each batch in
turn and the whole batch is written. -/
def writeBatches (cs : List Bool → Nat) (packetRecords : Nat) :
    CompressedVectorWriter → List (List Record) → Except Raised CompressedVectorWriter
  | w, [] => .ok w
  | w, batch :: rest =>
    match CompressedVectorWriter.write cs packetRecords w batch batch.length with
    | .ok w2 => writeBatches cs packetRecords w2 rest
    | .error e => .error e

/-- The caller's reading loop: read into buffers of the given capacity until a
read returns 0 records; `fuel` bounds the number of reads, and running out of
it yields `none`. -/
def readUntilEnd (cs : List Bool → Nat) (checked : Nat → Bool) (capacity : Nat) :
    Nat → CompressedVectorReader → Option (Except Raised (List Record))
  | 0, _ => none
  | fuel + 1, r =>
    match CompressedVectorReader.read cs checked r capacity with
    | .error e => some (.error e)
    | .ok (out, r2) =>
      if out.length = 0 then some (.ok [])
      else
        match readUntilEnd cs checked capacity fuel r2 with
        | some (.ok rest) => some (.ok (out ++ rest))
        | other => other

/-- The round trip of the spec's law: write the batches through a writer on an
empty node, close it, and read everything back through a fresh reader. -/
def roundTrip (policy : ClosePolicy) (cs : List Bool → Nat) (checked : Nat → Bool)
    (packetRecords capacity fuel : Nat) (batches : List (List Record)) :
    Option (Except Raised (List Record)) :=
  match writeBatches cs packetRecords (CompressedVectorNode.writer ⟨[]⟩) batches with
  | .error e => some (.error e)
  | .ok w =>
    match CompressedVectorWriter.close policy cs w with
    | .error e => some (.error e)
    | .ok closed =>
      readUntilEnd cs checked capacity fuel (CompressedVectorNode.reader ⟨closed.packets⟩)

/-! ## Shared lemmas -/

theorem cast_node_eq (n : Node) :
    cast_node n = .ok (some { cls := n.type.toPyClass, node := n }) := by
  obtain ⟨t, name⟩ := n
  cases t <;> rfl

theorem lib_get_in_range (children : List Node) (index : Int)
    (h0 : 0 ≤ index) (h1 : index < (children.length : Int)) :
    ∃ c, children[index.toNat]? = some c ∧ lib_get children index = .ok c := by
  have hlt : index.toNat < children.length := by omega
  refine ⟨children[index.toNat], List.getElem?_eq_getElem hlt, ?_⟩
  unfold lib_get
  rw [if_neg (by omega), List.getElem?_eq_getElem hlt]

theorem c_str_eq_self (s : String) (h : Char.ofNat 0 ∉ s.toList) : c_str s = s := by
  unfold c_str
  have hall : s.toList.takeWhile (fun c => c ≠ Char.ofNat 0) = s.toList := by
    rw [List.takeWhile_eq_self_iff]
    intro x hx
    have : x ≠ Char.ofNat 0 := fun hxe => h (hxe ▸ hx)
    simpa using this
  rw [hall]
  rfl

/-! ## Indexing and downcasting -/

/-- C1: for a StructureNode `s`, a VectorNode `v` and any integer index `i`,
`__getitem__(i)` raises the index error exactly when `i < 0` or
`i >= childCount()` (the value `__len__` returns); otherwise the library's
`get(i)` succeeds with a child `n` and `__getitem__` returns `cast_node(n)`,
the wrapper of that child; and every index handed to the library's
`get(index)` lies in `0 <= index < childCount()`. -/
theorem getitem_index_error_iff (s : StructureNode) (v : VectorNode) (i : Int) :
    (s.__len__ = s.childCount ∧
      ((s.__getitem__ i).result = .error .index_error ↔ (i < 0 ∨ i ≥ s.childCount)) ∧
      (¬ (i < 0 ∨ i ≥ s.childCount) →
        ∃ n, s.get i = .ok n ∧ s.children[i.toNat]? = some n ∧
          (s.__getitem__ i).result = cast_node n ∧
          (s.__getitem__ i).result = .ok (some { cls := n.type.toPyClass, node := n })) ∧
      (∀ j ∈ (s.__getitem__ i).getCalls, 0 ≤ j ∧ j < s.childCount)) ∧
    (v.__len__ = v.childCount ∧
      ((v.__getitem__ i).result = .error .index_error ↔ (i < 0 ∨ i ≥ v.childCount)) ∧
      (¬ (i < 0 ∨ i ≥ v.childCount) →
        ∃ n, v.get i = .ok n ∧ v.children[i.toNat]? = some n ∧
          (v.__getitem__ i).result = cast_node n ∧
          (v.__getitem__ i).result = .ok (some { cls := n.type.toPyClass, node := n })) ∧
      (∀ j ∈ (v.__getitem__ i).getCalls, 0 ≤ j ∧ j < v.childCount)) := by
  constructor
  · by_cases hout : i ≥ s.childCount ∨ i < 0
    · have hres : s.__getitem__ i = { getCalls := [], result := .error .index_error } := by
        unfold StructureNode.__getitem__
        rw [if_pos hout]
      refine ⟨rfl, ?_, ?_, ?_⟩
      · rw [hres]
        exact ⟨fun _ => hout.symm, fun _ => rfl⟩
      · intro hin
        exact absurd hout.symm hin
      · rw [hres]
        intro j hj
        simp at hj
    · have h0 : 0 ≤ i := by
        by_contra hc
        exact hout (Or.inr (by omega))
      have h1 : i < (s.children.length : Int) := by
        by_contra hc
        exact hout (Or.inl (by unfold StructureNode.childCount; omega))
      obtain ⟨c, hc, hget⟩ := lib_get_in_range s.children i h0 h1
      have hres : s.__getitem__ i = { getCalls := [i], result := cast_node c } := by
        unfold StructureNode.__getitem__ StructureNode.get
        rw [if_neg hout, hget]
      refine ⟨rfl, ?_, ?_, ?_⟩
      · rw [hres, cast_node_eq]
        constructor
        · intro h
          cases h
        · intro h
          exact absurd (Or.symm h) hout
      · intro _
        exact ⟨c, hget, hc, by rw [hres], by rw [hres, cast_node_eq]⟩
      · rw [hres]
        intro j hj
        simp at hj
        subst hj
        exact ⟨h0, h1⟩
  · by_cases hout : i ≥ v.childCount ∨ i < 0
    · have hres : v.__getitem__ i = { getCalls := [], result := .error .index_error } := by
        unfold VectorNode.__getitem__
        rw [if_pos hout]
      refine ⟨rfl, ?_, ?_, ?_⟩
      · rw [hres]
        exact ⟨fun _ => hout.symm, fun _ => rfl⟩
      · intro hin
        exact absurd hout.symm hin
      · rw [hres]
        intro j hj
        simp at hj
    · have h0 : 0 ≤ i := by
        by_contra hc
        exact hout (Or.inr (by omega))
      have h1 : i < (v.children.length : Int) := by
        by_contra hc
        exact hout (Or.inl (by unfold VectorNode.childCount; omega))
      obtain ⟨c, hc, hget⟩ := lib_get_in_range v.children i h0 h1
      have hres : v.__getitem__ i = { getCalls := [i], result := cast_node c } := by
        unfold VectorNode.__getitem__ VectorNode.get
        rw [if_neg hout, hget]
      refine ⟨rfl, ?_, ?_, ?_⟩
      · rw [hres, cast_node_eq]
        constructor
        · intro h
          cases h
        · intro h
          exact absurd (Or.symm h) hout
      · intro _
        exact ⟨c, hget, hc, by rw [hres], by rw [hres, cast_node_eq]⟩
      · rw [hres]
        intro j hj
        simp at hj
        subst hj
        exact ⟨h0, h1⟩

/-- C2: for every node `n` (its dynamic type being one of the eight `NodeType`
values), `cast_node(n)` returns a wrapper of exactly the class named by
`n.type()` around `n`: the chain of tests never falls through, the checked
downcast it performs succeeds, and no error at all is raised, in particular no
bad-node-downcast error. -/
theorem cast_node_total (n : Node) :
    downcast n.type n = .ok n ∧
    cast_node n = .ok (some { cls := n.type.toPyClass, node := n }) ∧
    cast_node n ≠ .ok none ∧
    (∀ e, cast_node n ≠ .error e) := by
  refine ⟨?_, cast_node_eq n, ?_, ?_⟩
  · unfold downcast
    rw [if_pos rfl]
  · rw [cast_node_eq]
    intro h
    cases h
  · intro e
    rw [cast_node_eq]
    intro h
    cases h

/-! ## Exception translation -/

/-- C3: every native `E57Exception` reaching the translator is turned into the
module's one exception type `E57Exception`, with message
`errorCodeToString(e.errorCode())` (the library's strings hold no NUL
character, so `c_str()` keeps them whole); two native exceptions with the same
error code translate to the same error whatever their context and source
location; and exceptions whose error-code strings differ translate to
different messages. -/
theorem exception_translator_by_code (errorCodeToString : ErrorCode → String)
    (hnul : ∀ c, Char.ofNat 0 ∉ (errorCodeToString c).toList) (e1 e2 : E57Exception) :
    exception_translator errorCodeToString (some (.e57 e1)) =
      .E57Exception (errorCodeToString e1.errorCode) ∧
    (e1.errorCode = e2.errorCode →
      exception_translator errorCodeToString (some (.e57 e1)) =
        exception_translator errorCodeToString (some (.e57 e2))) ∧
    (errorCodeToString e1.errorCode ≠ errorCodeToString e2.errorCode →
      exception_translator errorCodeToString (some (.e57 e1)) ≠
        exception_translator errorCodeToString (some (.e57 e2))) := by
  have ht : ∀ e : E57Exception, exception_translator errorCodeToString (some (.e57 e)) =
      .E57Exception (errorCodeToString e.errorCode) := by
    intro e
    unfold exception_translator
    simp only
    rw [c_str_eq_self _ (hnul e.errorCode)]
  refine ⟨ht e1, ?_, ?_⟩
  · intro h
    rw [ht e1, ht e2, h]
  · intro hne h
    rw [ht e1, ht e2] at h
    exact hne (Translated.E57Exception.inj h)

theorem sampleErrorCodeToString_no_nul (c : ErrorCode) :
    Char.ofNat 0 ∉ (sampleErrorCodeToString c).toList := by
  unfold sampleErrorCodeToString
  split <;> decide

/-- Witness for C3: the translator on two native exceptions with different
codes and contexts, under a NUL-free error-code table. -/
theorem exception_translator_by_code_witness :
    (∀ c, Char.ofNat 0 ∉ (sampleErrorCodeToString c).toList) ∧
    exception_translator sampleErrorCodeToString
        (some (.e57 { errorCode := .E57_SUCCESS, context := "a", sourceFileName := "x.cpp",
                      sourceFunctionName := "f", sourceLineNumber := 1 })) =
      .E57Exception "operation was successful (E57_SUCCESS)" :=
  ⟨sampleErrorCodeToString_no_nul,
   (exception_translator_by_code sampleErrorCodeToString sampleErrorCodeToString_no_nul
      { errorCode := .E57_SUCCESS, context := "a", sourceFileName := "x.cpp",
        sourceFunctionName := "f", sourceLineNumber := 1 }
      { errorCode := .E57_ERROR_INTERNAL, context := "b", sourceFileName := "y.cpp",
        sourceFunctionName := "g", sourceLineNumber := 2 }).1⟩

/-! ## SourceDestBuffer construction -/

theorem SourceDestBuffer.init_of_format (imf : ImageFile) (pathName : String)
    (shape : List Int) (capacity : Nat) (dc ds : Bool) (stride : Nat) (k : CType)
    (fmt : String) (hk : k.format = some fmt) :
    SourceDestBuffer.init imf pathName ⟨fmt, 1, shape⟩ capacity dc ds stride =
      .ok ⟨imf, pathName, k, capacity, dc, ds, if stride = 0 then sizeof k else stride⟩ := by
  cases k <;> simp [CType.format] at hk <;> subst hk <;> simp [SourceDestBuffer.init]


theorem SourceDestBuffer.init_inv (imf : ImageFile) (pathName : String)
    (np_array : buffer_info) (capacity : Nat) (dc ds : Bool) (stride : Nat)
    (sdb : SourceDestBuffer)
    (h : SourceDestBuffer.init imf pathName np_array capacity dc ds stride = .ok sdb) :
    np_array.ndim = 1 ∧ ∃ k, k.format = some np_array.format ∧
      sdb = ⟨imf, pathName, k, capacity, dc, ds, if stride = 0 then sizeof k else stride⟩ := by
  unfold SourceDestBuffer.init at h
  by_cases hd : np_array.ndim ≠ 1
  · rw [if_pos hd] at h; cases h
  rw [if_neg hd] at h
  refine ⟨not_not.mp hd, ?_⟩
  by_cases h1 : np_array.format = "b"
  · rw [if_pos h1] at h; injection h with h; exact ⟨.int8_t, by rw [h1]; rfl, h.symm⟩
  rw [if_neg h1] at h
  by_cases h2 : np_array.format = "B"
  · rw [if_pos h2] at h; injection h with h; exact ⟨.uint8_t, by rw [h2]; rfl, h.symm⟩
  rw [if_neg h2] at h
  by_cases h3 : np_array.format = "h"
  · rw [if_pos h3] at h; injection h with h; exact ⟨.int16_t, by rw [h3]; rfl, h.symm⟩
  rw [if_neg h3] at h
  by_cases h4 : np_array.format = "H"
  · rw [if_pos h4] at h; injection h with h; exact ⟨.uint16_t, by rw [h4]; rfl, h.symm⟩
  rw [if_neg h4] at h
  by_cases h5 : np_array.format = "l"
  · rw [if_pos h5] at h; injection h with h; exact ⟨.int32_t, by rw [h5]; rfl, h.symm⟩
  rw [if_neg h5] at h
  by_cases h6 : np_array.format = "L"
  · rw [if_pos h6] at h; injection h with h; exact ⟨.uint32_t, by rw [h6]; rfl, h.symm⟩
  rw [if_neg h6] at h
  by_cases h7 : np_array.format = "q"
  · rw [if_pos h7] at h; injection h with h; exact ⟨.int64_t, by rw [h7]; rfl, h.symm⟩
  rw [if_neg h7] at h
  by_cases h8 : np_array.format = "?"
  · rw [if_pos h8] at h; injection h with h; exact ⟨.bool, by rw [h8]; rfl, h.symm⟩
  rw [if_neg h8] at h
  by_cases h9 : np_array.format = "f"
  · rw [if_pos h9] at h; injection h with h; exact ⟨.float, by rw [h9]; rfl, h.symm⟩
  rw [if_neg h9] at h
  by_cases h10 : np_array.format = "d"
  · rw [if_pos h10] at h; injection h with h; exact ⟨.double, by rw [h10]; rfl, h.symm⟩
  rw [if_neg h10] at h
  cases h

theorem SourceDestBuffer.init_never_uint64 (imf : ImageFile) (pathName : String)
    (np_array : buffer_info) (capacity : Nat) (dc ds : Bool) (stride : Nat)
    (sdb : SourceDestBuffer)
    (h : SourceDestBuffer.init imf pathName np_array capacity dc ds stride = .ok sdb) :
    sdb.b ≠ .uint64_t := by
  obtain ⟨_, k, hk, hs⟩ := SourceDestBuffer.init_inv _ _ _ _ _ _ _ _ h
  subst hs
  intro hb
  simp only at hb
  subst hb
  simp [CType.format] at hk

theorem naturalSize_of_format (k : CType) (fmt : String) (h : k.format = some fmt) :
    naturalSize fmt = sizeof k := by
  cases k <;> simp [CType.format] at h <;> subst h <;> decide

theorem format_of_accepted (fmt : String) (h : fmt ∈ acceptedFormats) :
    ∃ k : CType, k.format = some fmt := by
  simp only [acceptedFormats, List.mem_cons, List.mem_singleton, List.not_mem_nil,
    or_false] at h
  rcases h with h | h | h | h | h | h | h | h | h | h <;> subst h
  · exact ⟨.int8_t, rfl⟩
  · exact ⟨.uint8_t, rfl⟩
  · exact ⟨.int16_t, rfl⟩
  · exact ⟨.uint16_t, rfl⟩
  · exact ⟨.int32_t, rfl⟩
  · exact ⟨.uint32_t, rfl⟩
  · exact ⟨.int64_t, rfl⟩
  · exact ⟨.bool, rfl⟩
  · exact ⟨.float, rfl⟩
  · exact ⟨.double, rfl⟩

theorem elementKind_of_format (dm : DataModel) (k : CType) (fmt : String)
    (hk : k.format = some fmt) (hl : fmt ≠ "l") (hL : fmt ≠ "L") :
    elementKind dm fmt = some k := by
  cases k <;> simp [CType.format] at hk <;> subst hk <;>
    first
      | exact absurd rfl hl
      | exact absurd rfl hL
      | (cases dm <;> decide)

theorem fixedElementKinds_format (k : CType) (hk : k ∈ fixedElementKinds) :
    ∃ fmt, fmt ∈ fixedFormats ∧ k.format = some fmt ∧ fmt ≠ "l" ∧ fmt ≠ "L" := by
  simp only [fixedElementKinds, List.mem_cons, List.mem_singleton, List.not_mem_nil,
    or_false] at hk
  rcases hk with h | h | h | h | h | h | h | h <;> subst h <;>
    exact ⟨_, by decide, rfl, by decide, by decide⟩

theorem fixedFormats_format (dm : DataModel) (k : CType) (fmt : String)
    (hfmt : fmt ∈ fixedFormats) (hkind : elementKind dm fmt = some k) :
    k.format = some fmt := by
  simp only [fixedFormats, List.mem_cons, List.mem_singleton, List.not_mem_nil,
    or_false] at hfmt
  rcases hfmt with h | h | h | h | h | h | h | h <;> subst h <;>
    simp [elementKind] at hkind <;> subst hkind <;> rfl

/-- C4, as stated, fails.  Unsigned 64-bit is in the spec's closed set of
element kinds and is what format `Q` stands for, yet a one-dimensional buffer
of format `Q` is refused with the value error, and no buffer whatever is
bound as `uint64_t`.  Where `long` is 64 bits, the 32-bit integers fail too:
a buffer of `int` (format `i`, the only format of signed 32-bit there) is
refused, and a buffer of format `l`, whose elements are signed 64-bit, is
bound as `int32_t` with stride 4. -/
theorem SourceDestBuffer_uint64_refused :
    (CType.uint64_t ∈ specElementKinds ∧
      (∀ dm, elementKind dm "Q" = some .uint64_t) ∧
      SourceDestBuffer.init ⟨"scan.e57"⟩ "cartesianX" ⟨"Q", 1, [8]⟩ 8 false false 0 =
        .error (.value_error "Incompatible type (integers: bBhHlLq, bool: ?, floats: fd)") ∧
      ¬ ∃ (np_array : buffer_info) (sdb : SourceDestBuffer),
          SourceDestBuffer.init ⟨"scan.e57"⟩ "cartesianX" np_array 8 false false 0 = .ok sdb ∧
          sdb.b = .uint64_t) ∧
    (CType.int32_t ∈ specElementKinds ∧
      elementKind .LP64 "i" = some .int32_t ∧
      SourceDestBuffer.init ⟨"scan.e57"⟩ "rowIndex" ⟨"i", 1, [8]⟩ 8 false false 0 =
        .error (.value_error "Incompatible type (integers: bBhHlLq, bool: ?, floats: fd)") ∧
      elementKind .LP64 "l" = some .int64_t ∧
      SourceDestBuffer.init ⟨"scan.e57"⟩ "rowIndex" ⟨"l", 1, [8]⟩ 8 false false 0 =
        .ok ⟨⟨"scan.e57"⟩, "rowIndex", .int32_t, 8, false, false, 4⟩) := by
  refine ⟨⟨by decide, fun dm => by cases dm <;> decide, by decide, ?_⟩,
    by decide, by decide, by decide, by decide, by decide⟩
  rintro ⟨np_array, sdb, h, hb⟩
  exact SourceDestBuffer.init_never_uint64 _ _ _ _ _ _ _ _ h hb

/-- C4, amended: for each of these element kinds of the spec's closed set,
signed and unsigned 8- and 16-bit integers, signed 64-bit integers, boolean,
32- and 64-bit float, one of the format characters b, B, h, H, q, ?, f, d
stands for this kind on every platform, and the constructor, given a
one-dimensional buffer of this kind under one of these format characters,
binds the buffer with that element type instead of raising; whenever the
constructor binds a buffer whose format is not `l` or `L`, the element type
it binds is the one the buffer's format stands for; and no buffer is ever
bound as unsigned 64-bit.  Nothing is stated about 32-bit integer buffers and
the formats `l` and `L`. -/
theorem SourceDestBuffer_accepts_kind (dm : DataModel) (imf : ImageFile) (pathName : String)
    (shape : List Int) (capacity : Nat) (dc ds : Bool) (stride : Nat) (k : CType)
    (hk : k ∈ fixedElementKinds) :
    (k ∈ specElementKinds ∧
      (∃ fmt, fmt ∈ fixedFormats ∧ ∀ dm2, elementKind dm2 fmt = some k) ∧
      (∀ fmt, fmt ∈ fixedFormats → elementKind dm fmt = some k →
        SourceDestBuffer.init imf pathName ⟨fmt, 1, shape⟩ capacity dc ds stride =
          .ok ⟨imf, pathName, k, capacity, dc, ds,
               if stride = 0 then sizeof k else stride⟩)) ∧
    (∀ (np_array : buffer_info) (sdb : SourceDestBuffer),
      SourceDestBuffer.init imf pathName np_array capacity dc ds stride = .ok sdb →
        np_array.format ≠ "l" → np_array.format ≠ "L" →
        elementKind dm np_array.format = some sdb.b) ∧
    ((∀ (np_array : buffer_info) (sdb : SourceDestBuffer),
        SourceDestBuffer.init imf pathName np_array capacity dc ds stride = .ok sdb →
          sdb.b ≠ .uint64_t) ∧
      SourceDestBuffer.init imf pathName ⟨"Q", 1, shape⟩ capacity dc ds stride =
        .error (.value_error "Incompatible type (integers: bBhHlLq, bool: ?, floats: fd)")) := by
  refine ⟨⟨?_, ?_, ?_⟩, ?_,
    fun np sdb h => SourceDestBuffer.init_never_uint64 _ _ _ _ _ _ _ _ h,
    by simp [SourceDestBuffer.init]⟩
  · revert hk
    cases k <;> decide
  · obtain ⟨fmt, hmem, hf, hl, hL⟩ := fixedElementKinds_format k hk
    exact ⟨fmt, hmem, fun dm2 => elementKind_of_format dm2 k fmt hf hl hL⟩
  · intro fmt hfmt hkind
    exact SourceDestBuffer.init_of_format _ _ _ _ _ _ _ _ _
      (fixedFormats_format dm k fmt hfmt hkind)
  · intro np sdb h hl hL
    obtain ⟨_, k2, hk2, hs⟩ := SourceDestBuffer.init_inv _ _ _ _ _ _ _ _ h
    subst hs
    exact elementKind_of_format dm k2 np.format hk2 hl hL

/-- Witness for C4 (amended): a 64-bit float buffer (format `d`) is bound as
`double`. -/
theorem SourceDestBuffer_accepts_kind_witness :
    CType.double ∈ fixedElementKinds ∧
    ("d" ∈ fixedFormats ∧ elementKind .LP64 "d" = some CType.double) ∧
    SourceDestBuffer.init ⟨"scan.e57"⟩ "cartesianX" ⟨"d", 1, [4]⟩ 4 false false 0 =
      .ok ⟨⟨"scan.e57"⟩, "cartesianX", .double, 4, false, false,
           if 0 = 0 then sizeof .double else 0⟩ :=
  ⟨by decide, ⟨by decide, by decide⟩,
   (SourceDestBuffer_accepts_kind .LP64 ⟨"scan.e57"⟩ "cartesianX" [4] 4 false false 0 .double
      (by decide)).1.2.2 "d" (by decide) (by decide)⟩

/-- C5: for every accepted buffer format and a one-dimensional buffer, the
constructor succeeds and the stride handed to the library is the caller's
stride when that is non-zero, and the natural size in bytes of the selected
element type when the stride is 0 or left out (1 for b, B and ?, 2 for h and
H, 4 for l, L and f, 8 for q and d). -/
theorem SourceDestBuffer_stride (imf : ImageFile) (pathName : String) (np_array : buffer_info)
    (capacity : Nat) (dc ds : Option Bool) (stride : Option Nat)
    (hdim : np_array.ndim = 1) (hfmt : np_array.format ∈ acceptedFormats) :
    ∃ sdb, SourceDestBuffer.__init__ imf pathName np_array capacity dc ds stride = .ok sdb ∧
      sdb.stride = (if stride.getD 0 ≠ 0 then stride.getD 0 else naturalSize np_array.format) ∧
      (stride = none ∨ stride = some 0 → sdb.stride = naturalSize np_array.format ∧
        sdb.stride = sizeof sdb.b) ∧
      (∀ st, stride = some st → st ≠ 0 → sdb.stride = st) := by
  obtain ⟨fmt, ndim, shape⟩ := np_array
  simp only at hdim hfmt
  subst hdim
  obtain ⟨k, hk⟩ := format_of_accepted fmt hfmt
  have hinit := SourceDestBuffer.init_of_format imf pathName shape capacity
    (dc.getD false) (ds.getD false) (stride.getD 0) k fmt hk
  have hnat := naturalSize_of_format k fmt hk
  refine ⟨_, hinit, ?_, ?_, ?_⟩
  · simp only [hnat]
    by_cases hz : stride.getD 0 = 0 <;> simp [hz]
  · intro hs
    rcases hs with hs | hs <;> subst hs <;> simp [hnat]
  · intro st hs hne
    subst hs
    simp [hne]

/-- Witness for C5: a `float` buffer bound with the stride left out gets
stride 4. -/
theorem SourceDestBuffer_stride_witness :
    (⟨"f", 1, [16]⟩ : buffer_info).ndim = 1 ∧
    (⟨"f", 1, [16]⟩ : buffer_info).format ∈ acceptedFormats ∧
    ∃ sdb, SourceDestBuffer.__init__ ⟨"scan.e57"⟩ "intensity" ⟨"f", 1, [16]⟩ 16 none none none =
        .ok sdb ∧
      sdb.stride = (if (none : Option Nat).getD 0 ≠ 0 then (none : Option Nat).getD 0
        else naturalSize (⟨"f", 1, [16]⟩ : buffer_info).format) :=
  ⟨rfl, by decide,
   (SourceDestBuffer_stride ⟨"scan.e57"⟩ "intensity" ⟨"f", 1, [16]⟩ 16 none none none rfl
      (by decide)).imp (fun _ h => ⟨h.1, h.2.1⟩)⟩

/-- C6: for an accepted one-dimensional buffer the constructor succeeds and
the library constructor receives `doConversion` and `doScaling` exactly as the
caller gave them, and `false` for each one the caller left out; a call giving
neither has both flags disabled. -/
theorem SourceDestBuffer_flags (imf : ImageFile) (pathName : String) (np_array : buffer_info)
    (capacity : Nat) (dc ds : Option Bool) (stride : Option Nat)
    (hdim : np_array.ndim = 1) (hfmt : np_array.format ∈ acceptedFormats) :
    ∃ sdb, SourceDestBuffer.__init__ imf pathName np_array capacity dc ds stride = .ok sdb ∧
      sdb.doConversion = dc.getD false ∧ sdb.doScaling = ds.getD false ∧
      (dc = none → sdb.doConversion = false) ∧ (ds = none → sdb.doScaling = false) ∧
      (∀ c, dc = some c → sdb.doConversion = c) ∧ (∀ c, ds = some c → sdb.doScaling = c) := by
  obtain ⟨fmt, ndim, shape⟩ := np_array
  simp only at hdim hfmt
  subst hdim
  obtain ⟨k, hk⟩ := format_of_accepted fmt hfmt
  have hinit := SourceDestBuffer.init_of_format imf pathName shape capacity
    (dc.getD false) (ds.getD false) (stride.getD 0) k fmt hk
  refine ⟨_, hinit, rfl, rfl, ?_, ?_, ?_, ?_⟩
  · intro hd; subst hd; rfl
  · intro hd; subst hd; rfl
  · intro c hd; subst hd; rfl
  · intro c hd; subst hd; rfl

/-- Witness for C6: a `double` buffer bound without the two flags. -/
theorem SourceDestBuffer_flags_witness :
    (⟨"d", 1, [4]⟩ : buffer_info).ndim = 1 ∧
    (⟨"d", 1, [4]⟩ : buffer_info).format ∈ acceptedFormats ∧
    ∃ sdb, SourceDestBuffer.__init__ ⟨"scan.e57"⟩ "cartesianX" ⟨"d", 1, [4]⟩ 4 none none none =
        .ok sdb ∧ sdb.doConversion = false ∧ sdb.doScaling = false :=
  ⟨rfl, by decide,
   (SourceDestBuffer_flags ⟨"scan.e57"⟩ "cartesianX" ⟨"d", 1, [4]⟩ 4 none none none rfl
      (by decide)).imp (fun _ h => ⟨h.1, h.2.1, h.2.2.1⟩)⟩

/-- C7 at the failing input: a one-dimensional `double` buffer of a single
element and capacity 1000 is accepted, and the library constructor receives
capacity 1000, larger than the bound region; more generally the accepted
capacity does not depend on the buffer's shape at all. -/
theorem SourceDestBuffer_capacity_unchecked :
    SourceDestBuffer.__init__ ⟨"scan.e57"⟩ "cartesianX" ⟨"d", 1, [1]⟩ 1000 none none none =
      .ok ⟨⟨"scan.e57"⟩, "cartesianX", .double, 1000, false, false, 8⟩ ∧
    ¬ ((1000 : Int) ≤ 1) ∧
    (∀ (n : Int) (c : Nat),
      SourceDestBuffer.__init__ ⟨"scan.e57"⟩ "cartesianX" ⟨"d", 1, [n]⟩ c none none none =
        .ok ⟨⟨"scan.e57"⟩, "cartesianX", .double, c, false, false, 8⟩) := by
  refine ⟨by decide, by decide, ?_⟩
  intro n c
  exact SourceDestBuffer.init_of_format ⟨"scan.e57"⟩ "cartesianX" [n] c false false 0
    .double "d" rfl

/-! ## Attachment overloads -/

/-- C8 at the failing input: a `BlobNode` child is accepted by no overload of
`StructureNode.set` nor of `VectorNode.append` (the call raises `TypeError`
and nothing is forwarded), while a child of each of the seven other node
classes is forwarded to the library's `set` / `append`. -/
theorem set_append_blob_rejected :
    (∀ (node : StructureNode) (pathName : String) (n : Node),
      StructureNode.set node pathName ⟨.BlobNode, n⟩ = .error .type_error) ∧
    (∀ (v : VectorNode) (n : Node),
      VectorNode.append v ⟨.BlobNode, n⟩ = .error .type_error) ∧
    StructureNode.set ⟨⟨.E57_STRUCTURE, ""⟩, []⟩ "thumbnail"
        ⟨NodeType.E57_BLOB.toPyClass, ⟨.E57_BLOB, ""⟩⟩ = .error .type_error ∧
    VectorNode.append ⟨⟨.E57_VECTOR, "images"⟩, true, []⟩
        ⟨NodeType.E57_BLOB.toPyClass, ⟨.E57_BLOB, ""⟩⟩ = .error .type_error ∧
    (∀ (node : StructureNode) (v : VectorNode) (pathName : String) (t : NodeType) (n : Node),
      t ≠ .E57_BLOB →
        StructureNode.set node pathName ⟨t.toPyClass, n⟩ = .ok (.set node pathName n) ∧
        VectorNode.append v ⟨t.toPyClass, n⟩ = .ok (.append v n)) := by
  refine ⟨fun _ _ _ => rfl, fun _ _ => rfl, rfl, rfl, ?_⟩
  intro node v pathName t n ht
  cases t <;> first | exact absurd rfl ht | exact ⟨rfl, rfl⟩

/-! ## Overload resolution of the `ScaledIntegerNode` constructors -/

theorem load_int_sub (a : PyArg) (v : Int) (h : load_int a = some v) :
    load_int64_t a = some v := by
  cases a with
  | float d => simp [load_int] at h
  | int w =>
    simp only [load_int] at h
    split_ifs at h with hr
    · injection h with h
      subst h
      simp only [load_int64_t]
      rw [if_pos]
      obtain ⟨h1, h2⟩ := hr
      unfold INT32_MIN at h1
      unfold INT32_MAX at h2
      unfold INT64_MIN INT64_MAX
      constructor <;> omega

theorem ScaledIntegerNode.overload2_shadowed (toD : Int → Option Double) (convert : Bool)
    (a : ScaledIntegerArgs) (r : ScaledIntegerNodeCtor)
    (h : ScaledIntegerNode.overload2 toD convert a = some r) :
    ∃ v mn mx s o, r = .int_int64_int64 v mn mx s o ∧
      ScaledIntegerNode.overload1 toD convert a = some (.int64_int64_int64 v mn mx s o) := by
  simp only [ScaledIntegerNode.overload2, bind, Option.bind_eq_some, pure,
    Option.some.injEq] at h
  obtain ⟨v, hv, mn, hmn, mx, hmx, s, hs, o, ho, hr⟩ := h
  refine ⟨v, mn, mx, s, o, hr.symm, ?_⟩
  simp [ScaledIntegerNode.overload1, load_int_sub _ _ hv, hmn, hmx, hs, ho]

theorem ScaledIntegerNode.overload3_shadowed (toD : Int → Option Double) (convert : Bool)
    (a : ScaledIntegerArgs) (r : ScaledIntegerNodeCtor)
    (h : ScaledIntegerNode.overload3 toD convert a = some r) :
    ∃ v mn mx s o, r = .int_int_int v mn mx s o ∧
      ScaledIntegerNode.overload1 toD convert a = some (.int64_int64_int64 v mn mx s o) := by
  simp only [ScaledIntegerNode.overload3, bind, Option.bind_eq_some, pure,
    Option.some.injEq] at h
  obtain ⟨v, hv, mn, hmn, mx, hmx, s, hs, o, ho, hr⟩ := h
  refine ⟨v, mn, mx, s, o, hr.symm, ?_⟩
  simp [ScaledIntegerNode.overload1, load_int_sub _ _ hv, load_int_sub _ _ hmn,
    load_int_sub _ _ hmx, hs, ho]

/-- One pass of the dispatcher over the four overloads reduces to the first
overload, then the fourth. -/
theorem ScaledIntegerNode.pass_eq (toD : Int → Option Double) (convert : Bool)
    (a : ScaledIntegerArgs) :
    (ScaledIntegerNode.overloads toD).findSome? (fun ov => ov convert a) =
      match ScaledIntegerNode.overload1 toD convert a with
      | some c => some c
      | none => ScaledIntegerNode.overload4 toD convert a := by
  cases h1 : ScaledIntegerNode.overload1 toD convert a with
  | some c => simp [ScaledIntegerNode.overloads, List.findSome?, h1]
  | none =>
    have h2 : ScaledIntegerNode.overload2 toD convert a = none := by
      cases h : ScaledIntegerNode.overload2 toD convert a with
      | none => rfl
      | some r =>
        obtain ⟨_, _, _, _, _, _, h'⟩ := ScaledIntegerNode.overload2_shadowed toD convert a r h
        rw [h1] at h'
        cases h'
    have h3 : ScaledIntegerNode.overload3 toD convert a = none := by
      cases h : ScaledIntegerNode.overload3 toD convert a with
      | none => rfl
      | some r =>
        obtain ⟨_, _, _, _, _, _, h'⟩ := ScaledIntegerNode.overload3_shadowed toD convert a r h
        rw [h1] at h'
        cases h'
    simp only [ScaledIntegerNode.overloads, List.findSome?, h1, h2, h3]
    cases ScaledIntegerNode.overload4 toD convert a <;> rfl

theorem ScaledIntegerNode.init_eq (toD : Int → Option Double) (value minimum maximum : PyArg)
    (scale offset : Option PyArg) :
    ScaledIntegerNode.__init__ toD value minimum maximum scale offset =
      let a : ScaledIntegerArgs :=
        { value := value, minimum := minimum, maximum := maximum,
          scale := scale.getD (.float Double.one), offset := offset.getD (.float Double.zero) }
      match ScaledIntegerNode.overload1 toD false a with
      | some c => .ok c
      | none =>
        match ScaledIntegerNode.overload4 toD false a with
        | some c => .ok c
        | none =>
          match ScaledIntegerNode.overload1 toD true a with
          | some c => .ok c
          | none =>
            match ScaledIntegerNode.overload4 toD true a with
            | some c => .ok c
            | none => .error .type_error := by
  unfold ScaledIntegerNode.__init__
  simp only [ScaledIntegerNode.pass_eq]
  cases ScaledIntegerNode.overload1 toD false _ <;>
    cases ScaledIntegerNode.overload4 toD false _ <;>
    cases ScaledIntegerNode.overload1 toD true _ <;>
    cases ScaledIntegerNode.overload4 toD true _ <;> rfl

theorem ScaledIntegerNode.overload1_shape (toD : Int → Option Double) (convert : Bool)
    (a : ScaledIntegerArgs) (r : ScaledIntegerNodeCtor)
    (h : ScaledIntegerNode.overload1 toD convert a = some r) :
    ∃ v mn mx s o, r = .int64_int64_int64 v mn mx s o := by
  simp only [ScaledIntegerNode.overload1, bind, Option.bind_eq_some, pure,
    Option.some.injEq] at h
  obtain ⟨v, _, mn, _, mx, _, s, _, o, _, hr⟩ := h
  exact ⟨v, mn, mx, s, o, hr.symm⟩

theorem ScaledIntegerNode.overload4_shape (toD : Int → Option Double) (convert : Bool)
    (a : ScaledIntegerArgs) (r : ScaledIntegerNodeCtor)
    (h : ScaledIntegerNode.overload4 toD convert a = some r) :
    ∃ v mn mx s o, r = .double_double_double v mn mx s o := by
  simp only [ScaledIntegerNode.overload4, bind, Option.bind_eq_some, pure,
    Option.some.injEq] at h
  obtain ⟨v, _, mn, _, mx, _, s, _, o, _, hr⟩ := h
  exact ⟨v, mn, mx, s, o, hr.symm⟩

theorem ScaledIntegerNode.init_shape (toD : Int → Option Double)
    (value minimum maximum : PyArg) (scale offset : Option PyArg) (r : ScaledIntegerNodeCtor)
    (h : ScaledIntegerNode.__init__ toD value minimum maximum scale offset = .ok r) :
    (∃ v mn mx s o, r = .int64_int64_int64 v mn mx s o) ∨
    (∃ v mn mx s o, r = .double_double_double v mn mx s o) := by
  rw [ScaledIntegerNode.init_eq] at h
  simp only at h
  split at h
  · next c hc =>
    injection h with h; subst h
    exact Or.inl (ScaledIntegerNode.overload1_shape _ _ _ _ hc)
  · split at h
    · next c hc =>
      injection h with h; subst h
      exact Or.inr (ScaledIntegerNode.overload4_shape _ _ _ _ hc)
    · split at h
      · next c hc =>
        injection h with h; subst h
        exact Or.inl (ScaledIntegerNode.overload1_shape _ _ _ _ hc)
      · split at h
        · next c hc =>
          injection h with h; subst h
          exact Or.inr (ScaledIntegerNode.overload4_shape _ _ _ _ hc)
        · cases h

theorem ScaledIntegerNode.init_ints (toD : Int → Option Double) (v mn mx : Int)
    (scale offset : Option PyArg) (s o : Double)
    (hv : INT64_MIN ≤ v ∧ v ≤ INT64_MAX) (hmn : INT64_MIN ≤ mn ∧ mn ≤ INT64_MAX)
    (hmx : INT64_MIN ≤ mx ∧ mx ≤ INT64_MAX)
    (hs : load_double toD true (scale.getD (.float Double.one)) = some s)
    (ho : load_double toD true (offset.getD (.float Double.zero)) = some o) :
    ScaledIntegerNode.__init__ toD (.int v) (.int mn) (.int mx) scale offset =
      .ok (.int64_int64_int64 v mn mx s o) := by
  rw [ScaledIntegerNode.init_eq]
  generalize scale.getD (.float Double.one) = sc at hs ⊢
  generalize offset.getD (.float Double.zero) = oc at ho ⊢
  have h1 : ∀ c, ScaledIntegerNode.overload1 toD c ⟨.int v, .int mn, .int mx, sc, oc⟩ =
      (load_double toD c sc).bind fun s => (load_double toD c oc).bind fun o =>
        some (.int64_int64_int64 v mn mx s o) := by
    intro c
    simp only [ScaledIntegerNode.overload1, load_int64_t, if_pos hv, if_pos hmn, if_pos hmx,
      bind, Option.some_bind, pure]
  have h4 : ScaledIntegerNode.overload4 toD false ⟨.int v, .int mn, .int mx, sc, oc⟩ = none := by
    simp [ScaledIntegerNode.overload4, load_double]
  simp only [h1, h4]
  cases sc <;> cases oc <;> simp [load_double] at hs ho ⊢ <;> simp [hs, ho]

theorem ScaledIntegerNode.init_floats (toD : Int → Option Double) (a b c : Double)
    (scale offset : Option PyArg) (s o : Double)
    (hs : load_double toD true (scale.getD (.float Double.one)) = some s)
    (ho : load_double toD true (offset.getD (.float Double.zero)) = some o) :
    ScaledIntegerNode.__init__ toD (.float a) (.float b) (.float c) scale offset =
      .ok (.double_double_double a b c s o) := by
  rw [ScaledIntegerNode.init_eq]
  generalize scale.getD (.float Double.one) = sc at hs ⊢
  generalize offset.getD (.float Double.zero) = oc at ho ⊢
  have h1 : ∀ cv, ScaledIntegerNode.overload1 toD cv ⟨.float a, .float b, .float c, sc, oc⟩ =
      none := by
    intro cv
    simp [ScaledIntegerNode.overload1, load_int64_t]
  have h4 : ∀ cv, ScaledIntegerNode.overload4 toD cv ⟨.float a, .float b, .float c, sc, oc⟩ =
      (load_double toD cv sc).bind fun s => (load_double toD cv oc).bind fun o =>
        some (.double_double_double a b c s o) := by
    intro cv
    simp only [ScaledIntegerNode.overload4, load_double, bind, Option.some_bind, pure]
  simp only [h1, h4]
  cases sc <;> cases oc <;> simp [load_double] at hs ho ⊢ <;> simp [hs, ho]

theorem ScaledIntegerNode.init_big (toD : Int → Option Double) :
    ScaledIntegerNode.__init__ toD (.int 9223372036854775808) (.int 0)
        (.int 9223372036854775808) none none =
      match toD 9223372036854775808, toD 0 with
      | some d63, some d0 => .ok (.double_double_double d63 d0 d63 Double.one Double.zero)
      | _, _ => .error .type_error := by
  rw [ScaledIntegerNode.init_eq]
  have h1 : ∀ c, ScaledIntegerNode.overload1 toD c
      ⟨.int 9223372036854775808, .int 0, .int 9223372036854775808,
        .float Double.one, .float Double.zero⟩ = none := by
    intro c
    simp [ScaledIntegerNode.overload1, load_int64_t, INT64_MAX]
  simp only [Option.getD_none, h1]
  cases h63 : toD 9223372036854775808 <;> cases h0 : toD 0 <;>
    simp [ScaledIntegerNode.overload4, load_double, h63, h0]

/-- C9, as stated, fails: with `value`, `minimum` and `maximum` all integers,
the call `ScaledIntegerNode(imf, 2**63, 0, 2**63)` never reaches a raw-integer
constructor, whatever the int-to-double conversion does; when that conversion
succeeds on the arguments (as CPython's does) the scaled floating-point
constructor is the one selected.  Likewise `ScaledIntegerNode(imf, 1, 0, 2,
scale=big)` with an integer scale that does not convert to a double (such as
`10**400` in CPython) selects no constructor at all. -/
theorem ScaledIntegerNode_big_int_not_raw :
    (∀ (toD : Int → Option Double) (c : ScaledIntegerNodeCtor),
      ScaledIntegerNode.__init__ toD (.int 9223372036854775808) (.int 0)
        (.int 9223372036854775808) none none = .ok c → c.isRaw = false) ∧
    (∀ (toD : Int → Option Double) (d63 d0 : Double),
      toD 9223372036854775808 = some d63 → toD 0 = some d0 →
        ScaledIntegerNode.__init__ toD (.int 9223372036854775808) (.int 0)
          (.int 9223372036854775808) none none =
          .ok (.double_double_double d63 d0 d63 Double.one Double.zero)) ∧
    (∀ (toD : Int → Option Double) (big : Int), toD big = none →
        ScaledIntegerNode.__init__ toD (.int 1) (.int 0) (.int 2) (some (.int big))
          none = .error .type_error) := by
  refine ⟨?_, ?_, ?_⟩
  · intro toD c h
    rw [ScaledIntegerNode.init_big] at h
    split at h
    · injection h with h
      subst h
      rfl
    · cases h
  · intro toD d63 d0 h63 h0
    rw [ScaledIntegerNode.init_big, h63, h0]
  · intro toD big hbig
    rw [ScaledIntegerNode.init_eq]
    simp [ScaledIntegerNode.overload1, ScaledIntegerNode.overload4, load_double, hbig]

/-- C9, amended: when `value`, `minimum` and `maximum` are all integers within
the signed 64-bit range (and `scale`, `offset` are left out or convertible to
double), the first overload is selected and the raw-integer library
constructor receives them unchanged, so a node it builds has
`rawValue() = value`, `minimum() = minimum`, `maximum() = maximum`; when they
are all floating-point the fourth overload is selected and the scaled
constructor receives them as `scaledValue`, `scaledMinimum`, `scaledMaximum`;
the overloads are tried in registration order, whatever the two narrower
integer overloads accept the first accepts with the same values, and so no
call ever selects them. -/
theorem ScaledIntegerNode_overload_choice (toD : Int → Option Double)
    (ctor_scaled : ImageFile → Double → Double → Double → Double → Double →
      Except Raised ScaledIntegerNode)
    (imf : ImageFile) (v mn mx : Int) (a b c : Double)
    (scale offset : Option PyArg) (s o : Double)
    (hv : INT64_MIN ≤ v ∧ v ≤ INT64_MAX) (hmn : INT64_MIN ≤ mn ∧ mn ≤ INT64_MAX)
    (hmx : INT64_MIN ≤ mx ∧ mx ≤ INT64_MAX)
    (hs : load_double toD true (scale.getD (.float Double.one)) = some s)
    (ho : load_double toD true (offset.getD (.float Double.zero)) = some o) :
    (ScaledIntegerNode.__init__ toD (.int v) (.int mn) (.int mx) scale offset =
        .ok (.int64_int64_int64 v mn mx s o) ∧
      ScaledIntegerNode.construct toD ctor_scaled imf (.int v) (.int mn) (.int mx) scale offset =
        ScaledIntegerNode.ctor imf v mn mx s o ∧
      (∀ node, ScaledIntegerNode.ctor imf v mn mx s o = .ok node →
        node.rawValue = v ∧ node.minimum = mn ∧ node.maximum = mx)) ∧
    (ScaledIntegerNode.__init__ toD (.float a) (.float b) (.float c) scale offset =
        .ok (.double_double_double a b c s o) ∧
      ScaledIntegerNode.construct toD ctor_scaled imf (.float a) (.float b) (.float c)
        scale offset = ctor_scaled imf a b c s o) ∧
    (∀ (convert : Bool) (args : ScaledIntegerArgs) (r : ScaledIntegerNodeCtor),
      (ScaledIntegerNode.overload2 toD convert args = some r ∨
        ScaledIntegerNode.overload3 toD convert args = some r) →
      ∃ v2 mn2 mx2 s2 o2,
        (r = .int_int64_int64 v2 mn2 mx2 s2 o2 ∨ r = .int_int_int v2 mn2 mx2 s2 o2) ∧
        ScaledIntegerNode.overload1 toD convert args =
          some (.int64_int64_int64 v2 mn2 mx2 s2 o2)) ∧
    (∀ (value minimum maximum : PyArg) (sc oc : Option PyArg) (r : ScaledIntegerNodeCtor),
      ScaledIntegerNode.__init__ toD value minimum maximum sc oc = .ok r →
        (∃ v2 mn2 mx2 s2 o2, r = .int64_int64_int64 v2 mn2 mx2 s2 o2) ∨
        (∃ v2 mn2 mx2 s2 o2, r = .double_double_double v2 mn2 mx2 s2 o2)) := by
  have hi := ScaledIntegerNode.init_ints toD v mn mx scale offset s o hv hmn hmx hs ho
  have hf := ScaledIntegerNode.init_floats toD a b c scale offset s o hs ho
  refine ⟨⟨hi, ?_, ?_⟩, ⟨hf, ?_⟩, ?_, ?_⟩
  · unfold ScaledIntegerNode.construct
    rw [hi]
  · intro node hnode
    unfold ScaledIntegerNode.ctor at hnode
    split_ifs at hnode
    injection hnode with hnode
    subst hnode
    exact ⟨rfl, rfl, rfl⟩
  · unfold ScaledIntegerNode.construct
    rw [hf]
  · intro convert args r hr
    rcases hr with hr | hr
    · obtain ⟨v2, mn2, mx2, s2, o2, h1, h2⟩ :=
        ScaledIntegerNode.overload2_shadowed toD convert args r hr
      exact ⟨v2, mn2, mx2, s2, o2, Or.inl h1, h2⟩
    · obtain ⟨v2, mn2, mx2, s2, o2, h1, h2⟩ :=
        ScaledIntegerNode.overload3_shadowed toD convert args r hr
      exact ⟨v2, mn2, mx2, s2, o2, Or.inr h1, h2⟩
  · intro value minimum maximum sc oc r hr
    exact ScaledIntegerNode.init_shape toD value minimum maximum sc oc r hr

/-- Witness for C9 (amended): `ScaledIntegerNode(imf, 5, 0, 10)` selects the
raw-integer constructor with the default scale and offset. -/
theorem ScaledIntegerNode_overload_choice_witness :
    ((INT64_MIN ≤ 5 ∧ 5 ≤ INT64_MAX) ∧ (INT64_MIN ≤ 0 ∧ 0 ≤ INT64_MAX) ∧
      (INT64_MIN ≤ 10 ∧ 10 ≤ INT64_MAX)) ∧
    load_double (fun _ => none) true ((none : Option PyArg).getD (.float Double.one)) =
      some Double.one ∧
    load_double (fun _ => none) true ((none : Option PyArg).getD (.float Double.zero)) =
      some Double.zero ∧
    ScaledIntegerNode.__init__ (fun _ => none) (.int 5) (.int 0) (.int 10) none none =
      .ok (.int64_int64_int64 5 0 10 Double.one Double.zero) :=
  ⟨⟨by decide, by decide, by decide⟩, rfl, rfl,
   (ScaledIntegerNode_overload_choice (fun _ => none)
      (fun _ _ _ _ _ _ => .error .type_error) ⟨"scan.e57"⟩ 5 0 10 ⟨0⟩ ⟨0⟩ ⟨0⟩ none none
      Double.one Double.zero (by decide) (by decide) (by decide) rfl rfl).1.1⟩

/-! ## Bounds of integer nodes -/

theorem size_t_of_nonneg (x : Int) (h0 : 0 ≤ x) (h1 : x < 2 ^ 63) : (size_t_of x : Int) = x := by
  unfold size_t_of
  have : x % 2 ^ 64 = x := Int.emod_eq_of_lt h0 (by omega)
  rw [this]
  exact Int.toNat_of_nonneg h0

/-- C16: for a buffer whose first extent is a valid `ssize_t` size,
`BlobNode.read` and `BlobNode.write` ask the library for a transfer exactly
when the buffer is one-dimensional, of format `B`, and has at least `count`
elements, and then for the one transfer `(start, count)`; otherwise they raise
a runtime error (the dimension test first, then the type, then the size), ask
nothing of the library and leave blob and buffer as they were; so every
transfer asked of the library moves at most as many bytes as the buffer has
elements. -/
theorem blob_transfer_guard (node : BlobNode) (buf : PyBuffer) (start : Int) (count : Nat)
    (hshape : 0 ≤ buf.info.shape0 ∧ buf.info.shape0 < 2 ^ 63) :
    ((buf.info.ndim = 1 ∧ buf.info.format = "B" ∧ (count : Int) ≤ buf.info.shape0 →
        (node.read buf start count).libCalls = [.read start count]) ∧
      (buf.info.ndim ≠ 1 → node.read buf start count =
        ⟨[], some (.runtime_error "Incompatible buffer dimension!"), node, buf⟩) ∧
      (buf.info.ndim = 1 → buf.info.format ≠ "B" → node.read buf start count =
        ⟨[], some (.runtime_error "Incompatible buffer type!"), node, buf⟩) ∧
      (buf.info.ndim = 1 → buf.info.format = "B" → buf.info.shape0 < (count : Int) →
        node.read buf start count =
          ⟨[], some (.runtime_error "Buffer not large enough to read."), node, buf⟩) ∧
      (∀ c ∈ (node.read buf start count).libCalls, (c.count : Int) ≤ buf.info.shape0)) ∧
    ((buf.info.ndim = 1 ∧ buf.info.format = "B" ∧ (count : Int) ≤ buf.info.shape0 →
        (node.write buf start count).libCalls = [.write start count]) ∧
      (buf.info.ndim ≠ 1 → node.write buf start count =
        ⟨[], some (.runtime_error "Incompatible buffer dimension!"), node, buf⟩) ∧
      (buf.info.ndim = 1 → buf.info.format ≠ "B" → node.write buf start count =
        ⟨[], some (.runtime_error "Incompatible buffer type!"), node, buf⟩) ∧
      (buf.info.ndim = 1 → buf.info.format = "B" → buf.info.shape0 < (count : Int) →
        node.write buf start count =
          ⟨[], some (.runtime_error "Buffer not large enough to write."), node, buf⟩) ∧
      (∀ c ∈ (node.write buf start count).libCalls, (c.count : Int) ≤ buf.info.shape0)) := by
  have hcast := size_t_of_nonneg buf.info.shape0 hshape.1 hshape.2
  have hlt : size_t_of buf.info.shape0 < count ↔ buf.info.shape0 < (count : Int) := by
    constructor
    · intro h
      omega
    · intro h
      omega
  constructor
  · refine ⟨?_, ?_, ?_, ?_, ?_⟩
    · rintro ⟨hd, hf, hc⟩
      unfold BlobNode.read
      simp only
      rw [if_neg (not_not.mpr hd), if_neg (not_not.mpr hf), if_neg (by rw [hlt]; omega)]
      cases node.lib_read buf.data start count <;> rfl
    · intro hd
      unfold BlobNode.read
      simp only
      rw [if_pos hd]
    · intro hd hf
      unfold BlobNode.read
      simp only
      rw [if_neg (not_not.mpr hd), if_pos hf]
    · intro hd hf hc
      unfold BlobNode.read
      simp only
      rw [if_neg (not_not.mpr hd), if_neg (not_not.mpr hf), if_pos (hlt.mpr hc)]
    · intro c hc
      unfold BlobNode.read at hc
      simp only at hc
      split_ifs at hc with h1 h2 h3
      · simp at hc
      · simp at hc
      · simp at hc
      · have hle : (count : Int) ≤ buf.info.shape0 := by
          rw [hlt] at h3
          omega
        cases hr : node.lib_read buf.data start count <;> rw [hr] at hc <;>
          simp at hc <;> subst hc <;> exact hle
  · refine ⟨?_, ?_, ?_, ?_, ?_⟩
    · rintro ⟨hd, hf, hc⟩
      unfold BlobNode.write
      simp only
      rw [if_neg (not_not.mpr hd), if_neg (not_not.mpr hf), if_neg (by rw [hlt]; omega)]
      cases node.lib_write buf.data start count <;> rfl
    · intro hd
      unfold BlobNode.write
      simp only
      rw [if_pos hd]
    · intro hd hf
      unfold BlobNode.write
      simp only
      rw [if_neg (not_not.mpr hd), if_pos hf]
    · intro hd hf hc
      unfold BlobNode.write
      simp only
      rw [if_neg (not_not.mpr hd), if_neg (not_not.mpr hf), if_pos (hlt.mpr hc)]
    · intro c hc
      unfold BlobNode.write at hc
      simp only at hc
      split_ifs at hc with h1 h2 h3
      · simp at hc
      · simp at hc
      · simp at hc
      · have hle : (count : Int) ≤ buf.info.shape0 := by
          rw [hlt] at h3
          omega
        cases hr : node.lib_write buf.data start count <;> rw [hr] at hc <;>
          simp at hc <;> subst hc <;> exact hle

/-- Witness for C16: reading 4 bytes into a 2-element `B` buffer is refused
on size, nothing being asked of the library. -/
theorem blob_transfer_guard_witness :
    ((0 : Int) ≤ (⟨"B", 1, [2]⟩ : buffer_info).shape0 ∧
      (⟨"B", 1, [2]⟩ : buffer_info).shape0 < 2 ^ 63) ∧
    (⟨"B", 1, [2]⟩ : buffer_info).ndim = 1 ∧ (⟨"B", 1, [2]⟩ : buffer_info).format = "B" ∧
    (⟨"B", 1, [2]⟩ : buffer_info).shape0 < ((4 : Nat) : Int) ∧
    BlobNode.read ⟨[7, 8, 9, 10]⟩ ⟨⟨"B", 1, [2]⟩, [0, 0]⟩ 0 4 =
      ⟨[], some (.runtime_error "Buffer not large enough to read."), ⟨[7, 8, 9, 10]⟩,
        ⟨⟨"B", 1, [2]⟩, [0, 0]⟩⟩ :=
  ⟨⟨by decide, by decide⟩, rfl, rfl, by decide,
   (blob_transfer_guard ⟨[7, 8, 9, 10]⟩ ⟨⟨"B", 1, [2]⟩, [0, 0]⟩ 0 4
      ⟨by decide, by decide⟩).1.2.2.2.1 rfl rfl (by decide)⟩

theorem CType.format_mem_accepted (k : CType) (f : String) (h : k.format = some f) :
    f ∈ acceptedFormats := by
  cases k <;> simp [CType.format] at h <;> subst h <;> decide

theorem CType.memoryRepresentation_of_format (k : CType) (f : String) (h : k.format = some f) :
    ∃ m, k.memoryRepresentation = some m ∧ m ≠ .E57_USTRING := by
  cases k <;> simp [CType.format] at h <;> exact ⟨_, rfl, by decide⟩

theorem CType.memoryRepresentation_injective (k1 k2 : CType) (m : MemoryRepresentation)
    (h1 : k1.memoryRepresentation = some m) (h2 : k2.memoryRepresentation = some m) :
    k1 = k2 := by
  cases k1 <;> cases k2 <;> simp [CType.memoryRepresentation] at h1 h2 <;>
    first | rfl | (subst h1; cases h2)

/-- C17: a buffer whose dimension is not 1 is refused with the runtime error
"Incompatible buffer dimension!" whatever its format; a one-dimensional buffer
whose format is not one of b, B, h, H, l, L, q, ?, f, d is refused with the
value error; in both cases nothing is bound.  Each of the ten accepted formats
binds the buffer with its own element type, different formats select
different element types and different memory representations, and every
`MemoryRepresentation` other than `E57_USTRING` is the representation of the
element type of exactly one accepted format. -/
theorem SourceDestBuffer_refuses_bad_buffers (imf : ImageFile) (pathName : String)
    (np_array : buffer_info) (capacity : Nat) (dc ds : Bool) (stride : Nat) :
    (np_array.ndim ≠ 1 →
      SourceDestBuffer.init imf pathName np_array capacity dc ds stride =
        .error (.runtime_error "Incompatible buffer dimension!")) ∧
    (np_array.ndim = 1 → np_array.format ∉ acceptedFormats →
      SourceDestBuffer.init imf pathName np_array capacity dc ds stride =
        .error (.value_error "Incompatible type (integers: bBhHlLq, bool: ?, floats: fd)")) ∧
    (acceptedFormats.length = 10 ∧ acceptedFormats.Nodup) ∧
    (np_array.ndim = 1 → np_array.format ∈ acceptedFormats →
      ∃ k m, k.format = some np_array.format ∧ k.memoryRepresentation = some m ∧
        m ≠ .E57_USTRING ∧
        SourceDestBuffer.init imf pathName np_array capacity dc ds stride =
          .ok ⟨imf, pathName, k, capacity, dc, ds, if stride = 0 then sizeof k else stride⟩) ∧
    (∀ (k1 k2 : CType) (f1 f2 : String), k1.format = some f1 → k2.format = some f2 →
      f1 ≠ f2 → k1 ≠ k2 ∧ k1.memoryRepresentation ≠ k2.memoryRepresentation) ∧
    (∀ m : MemoryRepresentation, m ≠ .E57_USTRING →
      ∃ (f : String) (k : CType), f ∈ acceptedFormats ∧ k.format = some f ∧
        k.memoryRepresentation = some m ∧
        ∀ (f2 : String) (k2 : CType), k2.format = some f2 →
          k2.memoryRepresentation = some m → f2 = f) := by
  refine ⟨?_, ?_, ⟨rfl, by decide⟩, ?_, ?_, ?_⟩
  · intro hd
    unfold SourceDestBuffer.init
    rw [if_pos hd]
  · intro hd hf
    simp only [acceptedFormats, List.mem_cons, List.mem_singleton, List.not_mem_nil,
      or_false, not_or] at hf
    obtain ⟨h1, h2, h3, h4, h5, h6, h7, h8, h9, h10⟩ := hf
    unfold SourceDestBuffer.init
    rw [if_neg (not_not.mpr hd), if_neg h1, if_neg h2, if_neg h3, if_neg h4, if_neg h5,
      if_neg h6, if_neg h7, if_neg h8, if_neg h9, if_neg h10]
  · intro hd hf
    obtain ⟨fmt, ndim, shape⟩ := np_array
    simp only at hd hf
    subst hd
    obtain ⟨k, hk⟩ := format_of_accepted fmt hf
    obtain ⟨m, hm, hne⟩ := CType.memoryRepresentation_of_format k fmt hk
    exact ⟨k, m, hk, hm, hne, SourceDestBuffer.init_of_format _ _ _ _ _ _ _ _ _ hk⟩
  · intro k1 k2 f1 f2 h1 h2 hne
    have hk : k1 ≠ k2 := by
      intro h
      subst h
      rw [h1] at h2
      exact hne (Option.some.inj h2)
    refine ⟨hk, ?_⟩
    intro hm
    obtain ⟨m, hm1, _⟩ := CType.memoryRepresentation_of_format k1 f1 h1
    exact hk (CType.memoryRepresentation_injective k1 k2 m hm1 (hm ▸ hm1))
  · intro m hm
    have huniq : ∀ (k : CType) (f : String), k.format = some f →
        k.memoryRepresentation = some m →
        ∀ (f2 : String) (k2 : CType), k2.format = some f2 →
          k2.memoryRepresentation = some m → f2 = f := by
      intro k f hk hkm f2 k2 hk2 hkm2
      have := CType.memoryRepresentation_injective k k2 m hkm hkm2
      subst this
      rw [hk] at hk2
      exact (Option.some.inj hk2).symm
    cases m with
    | E57_USTRING => exact absurd rfl hm
    | E57_INT8 => exact ⟨"b", .int8_t, by decide, rfl, rfl, huniq .int8_t "b" rfl rfl⟩
    | E57_UINT8 => exact ⟨"B", .uint8_t, by decide, rfl, rfl, huniq .uint8_t "B" rfl rfl⟩
    | E57_INT16 => exact ⟨"h", .int16_t, by decide, rfl, rfl, huniq .int16_t "h" rfl rfl⟩
    | E57_UINT16 => exact ⟨"H", .uint16_t, by decide, rfl, rfl, huniq .uint16_t "H" rfl rfl⟩
    | E57_INT32 => exact ⟨"l", .int32_t, by decide, rfl, rfl, huniq .int32_t "l" rfl rfl⟩
    | E57_UINT32 => exact ⟨"L", .uint32_t, by decide, rfl, rfl, huniq .uint32_t "L" rfl rfl⟩
    | E57_INT64 => exact ⟨"q", .int64_t, by decide, rfl, rfl, huniq .int64_t "q" rfl rfl⟩
    | E57_BOOL => exact ⟨"?", .bool, by decide, rfl, rfl, huniq .bool "?" rfl rfl⟩
    | E57_REAL32 => exact ⟨"f", .float, by decide, rfl, rfl, huniq .float "f" rfl rfl⟩
    | E57_REAL64 => exact ⟨"d", .double, by decide, rfl, rfl, huniq .double "d" rfl rfl⟩

/-! ## Closing readers and writers -/

/-- C14: closing is idempotent for readers and writers under either close
policy: after a first `close()` from any state the reader or writer is closed;
every further `close()` (the one the `__del__` finalizer makes among them)
has one and the same outcome every time, which is a no-op under the no-op
policy and the corresponding NotOpen error under the other, and leaves the
reader or writer unchanged and closed (`isOpen() = false`). -/
theorem close_idempotent (policy : ClosePolicy) (cs : List Bool → Nat)
    (r : CompressedVectorReader) (w : CompressedVectorWriter) (n : Nat) :
    ((stateAfter r (r.close policy)).isOpen = false ∧
      CompressedVectorReader.__del__ policy (stateAfter r (r.close policy)) =
        (stateAfter r (r.close policy)).close policy ∧
      (stateAfter r (r.close policy)).close policy =
        (match policy with
          | .noop => .ok (stateAfter r (r.close policy))
          | .notOpen => .error (.e57 (E57_EXCEPTION .E57_ERROR_READER_NOT_OPEN))) ∧
      (fun s => stateAfter s (CompressedVectorReader.close policy s))^[n]
        (stateAfter r (r.close policy)) = stateAfter r (r.close policy) ∧
      CompressedVectorReader.close policy
        ((fun s => stateAfter s (CompressedVectorReader.close policy s))^[n]
          (stateAfter r (r.close policy))) = (stateAfter r (r.close policy)).close policy) ∧
    ((stateAfter w (w.close policy cs)).isOpen = false ∧
      CompressedVectorWriter.__del__ policy cs (stateAfter w (w.close policy cs)) =
        (stateAfter w (w.close policy cs)).close policy cs ∧
      (stateAfter w (w.close policy cs)).close policy cs =
        (match policy with
          | .noop => .ok (stateAfter w (w.close policy cs))
          | .notOpen => .error (.e57 (E57_EXCEPTION .E57_ERROR_WRITER_NOT_OPEN))) ∧
      (fun s => stateAfter s (CompressedVectorWriter.close policy cs s))^[n]
        (stateAfter w (w.close policy cs)) = stateAfter w (w.close policy cs) ∧
      CompressedVectorWriter.close policy cs
        ((fun s => stateAfter s (CompressedVectorWriter.close policy cs s))^[n]
          (stateAfter w (w.close policy cs))) =
        (stateAfter w (w.close policy cs)).close policy cs) := by
  have hr1 : (stateAfter r (r.close policy)).isOpen = false := by
    unfold CompressedVectorReader.close stateAfter
    cases hopen : r.isOpen <;> cases policy <;> simp [hopen]
  have hw1 : (stateAfter w (w.close policy cs)).isOpen = false := by
    unfold CompressedVectorWriter.close stateAfter
    cases hopen : w.isOpen <;> cases policy <;> simp [hopen]
  have hrc : ∀ s : CompressedVectorReader, s.isOpen = false →
      stateAfter s (s.close policy) = s := by
    intro s hs
    unfold CompressedVectorReader.close stateAfter
    cases policy <;> simp [hs]
  have hwc : ∀ s : CompressedVectorWriter, s.isOpen = false →
      stateAfter s (s.close policy cs) = s := by
    intro s hs
    unfold CompressedVectorWriter.close stateAfter
    cases policy <;> simp [hs]
  have hri : (fun s => stateAfter s (CompressedVectorReader.close policy s))^[n]
      (stateAfter r (r.close policy)) = stateAfter r (r.close policy) :=
    Function.iterate_fixed (hrc _ hr1) n
  have hwi : (fun s => stateAfter s (CompressedVectorWriter.close policy cs s))^[n]
      (stateAfter w (w.close policy cs)) = stateAfter w (w.close policy cs) :=
    Function.iterate_fixed (hwc _ hw1) n
  refine ⟨⟨hr1, rfl, ?_, hri, by rw [hri]⟩, ⟨hw1, rfl, ?_, hwi, by rw [hwi]⟩⟩
  · generalize stateAfter r (r.close policy) = s at hr1
    unfold CompressedVectorReader.close
    cases policy <;> simp [hr1]
  · generalize stateAfter w (w.close policy cs) = s at hw1
    unfold CompressedVectorWriter.close
    cases policy <;> simp [hw1]

/-! ## The round trip of the record stream -/

theorem length_toBits (n x : Nat) : (toBits n x).length = n := by
  induction n generalizing x with
  | zero => rfl
  | succ n ih => simp [toBits, ih]

theorem ofBits_toBits (n x : Nat) : ofBits (toBits n x) = x % 2 ^ n := by
  induction n generalizing x with
  | zero => simp [toBits, ofBits, Nat.mod_one]
  | succ n ih =>
    simp only [toBits, ofBits, ih]
    rw [pow_succ', Nat.mod_mul]
    rcases Nat.mod_two_eq_zero_or_one x with h | h <;> simp [h]

theorem bitWidth_fieldA : bitWidth fieldA_minimum fieldA_maximum = 11 := by
  decide

theorem unpackInt_packInt_fieldA (v : Int) (h0 : 0 ≤ v) (h1 : v ≤ 1023) :
    unpackInt 11 (packInt 11 v) = v := by
  unfold unpackInt packInt
  rw [ofBits_toBits]
  have hv : (v % 2 ^ 11).toNat = v.toNat := by
    have : v % 2 ^ 11 = v := Int.emod_eq_of_lt h0 (by norm_num; omega)
    rw [this]
  rw [hv]
  have hlt : v.toNat < 2 ^ 11 := by
    have : (2 : Nat) ^ 11 = 2048 := by norm_num
    omega
  rw [Nat.mod_eq_of_lt hlt]
  have h10 : (2 : Nat) ^ (11 - 1) = 1024 := by norm_num
  rw [if_pos (by rw [h10]; omega)]
  exact Int.toNat_of_nonneg h0

theorem Record.valid_iff (r : Record) :
    r.valid = true ↔ fieldA_minimum ≤ r.a ∧ r.a ≤ fieldA_maximum ∧ r.b.bits < 2 ^ 64 := by
  unfold Record.valid
  exact decide_eq_true_iff

theorem unpackDouble_packDouble (d : Double) (h : d.bits < 2 ^ 64) :
    unpackDouble (packDouble d) = d := by
  unfold unpackDouble packDouble
  rw [ofBits_toBits, Nat.mod_eq_of_lt h]

theorem takeFields_flatten {α : Type} (w : Nat) (f : α → List Bool) (xs : List α)
    (rest : List Bool) (hlen : ∀ x ∈ xs, (f x).length = w) :
    takeFields w xs.length ((xs.map f).flatten ++ rest) = xs.map f := by
  induction xs with
  | nil => rfl
  | cons x xs ih =>
    have hx : (f x).length = w := hlen x (List.mem_cons_self _ _)
    have hxs : ∀ y ∈ xs, (f y).length = w := fun y hy => hlen y (List.mem_cons_of_mem _ hy)
    simp only [List.map_cons, List.flatten_cons, List.length_cons, takeFields,
      List.append_assoc]
    rw [List.take_left' hx, List.drop_left' hx, ih hxs]

theorem length_flatten_const {α : Type} (w : Nat) (f : α → List Bool) (xs : List α)
    (hlen : ∀ x ∈ xs, (f x).length = w) : ((xs.map f).flatten).length = xs.length * w := by
  induction xs with
  | nil => simp
  | cons x xs ih =>
    have hx : (f x).length = w := hlen x (List.mem_cons_self _ _)
    have hxs : ∀ y ∈ xs, (f y).length = w := fun y hy => hlen y (List.mem_cons_of_mem _ hy)
    simp only [List.map_cons, List.flatten_cons, List.length_append, List.length_cons, hx,
      ih hxs]
    rw [Nat.add_mul, Nat.one_mul, Nat.add_comm]

theorem zipWith_map_fields (recs : List Record) :
    List.zipWith Record.mk (recs.map (fun r => r.a)) (recs.map (fun r => r.b)) = recs := by
  induction recs with
  | nil => rfl
  | cons r rs ih => simp [ih]

theorem decodePacket_encodePacket (cs : List Bool → Nat) (recs : List Record)
    (hvalid : ∀ r ∈ recs, r.valid = true) :
    decodePacket (encodePacket cs recs) = recs := by
  have ha : ∀ r ∈ recs, (packInt 11 r.a).length = 11 := fun r _ => length_toBits _ _
  have hb : ∀ r ∈ recs, (packDouble r.b).length = 64 := fun r _ => length_toBits _ _
  have hla := length_flatten_const 11 (fun r : Record => packInt 11 r.a) recs ha
  have hlb := length_flatten_const 64 (fun r : Record => packDouble r.b) recs hb
  unfold decodePacket encodePacket recordBits
  simp only [bitWidth_fieldA]
  have hcount : ((recs.map (fun r => packInt 11 r.a)).flatten ++
      (recs.map (fun r => packDouble r.b)).flatten).length / (11 + 64) = recs.length := by
    rw [List.length_append, hla, hlb, ← Nat.mul_add]
    exact Nat.mul_div_cancel _ (by norm_num)
  rw [hcount, List.take_left' hla, List.drop_left' hla]
  have h1 := takeFields_flatten 11 (fun r : Record => packInt 11 r.a) recs [] ha
  have h2 := takeFields_flatten 64 (fun r : Record => packDouble r.b) recs [] hb
  rw [List.append_nil] at h1 h2
  rw [h1, h2, List.map_map, List.map_map]
  have e1 : recs.map (unpackInt 11 ∘ fun r => packInt 11 r.a) = recs.map (fun r => r.a) := by
    apply List.map_congr_left
    intro r hr
    have hv := (Record.valid_iff r).mp (hvalid r hr)
    have h0 : (0 : Int) ≤ r.a := hv.1
    have h1 : r.a ≤ 1023 := hv.2.1
    rw [Function.comp_apply]
    exact unpackInt_packInt_fieldA r.a h0 h1
  have e2 : recs.map (unpackDouble ∘ fun r => packDouble r.b) = recs.map (fun r => r.b) := by
    apply List.map_congr_left
    intro r hr
    have hv := (Record.valid_iff r).mp (hvalid r hr)
    rw [Function.comp_apply]
    exact unpackDouble_packDouble r.b hv.2.2
  rw [e1, e2, zipWith_map_fields]

theorem decodeStream_encode (cs : List Bool → Nat) (checked : Nat → Bool) (index : Nat)
    (chunks : List (List Record)) (hvalid : ∀ c ∈ chunks, ∀ r ∈ c, r.valid = true) :
    decodeStream cs checked index (chunks.map (encodePacket cs)) = .ok chunks.flatten := by
  induction chunks generalizing index with
  | nil => rfl
  | cons c rest ih =>
    have hc : ∀ r ∈ c, r.valid = true := hvalid c (List.mem_cons_self _ _)
    have hrest : ∀ d ∈ rest, ∀ r ∈ d, r.valid = true :=
      fun d hd => hvalid d (List.mem_cons_of_mem _ hd)
    simp only [List.map_cons, decodeStream]
    rw [if_neg (by
      intro h
      exact h.2 rfl)]
    rw [ih (index + 1) hrest, decodePacket_encodePacket cs c hc]
    rfl

theorem splitFull_flatten {α : Type} (size fuel : Nat) (l : List α) :
    (splitFull size fuel l).1.flatten ++ (splitFull size fuel l).2 = l := by
  induction fuel generalizing l with
  | zero => rfl
  | succ fuel ih =>
    unfold splitFull
    split_ifs with h
    · simp only [List.flatten_cons, List.append_assoc]
      rw [ih (l.drop size), List.take_append_drop]
    · rfl

theorem splitFull_mem {α : Type} (size fuel : Nat) (l : List α) :
    (∀ c ∈ (splitFull size fuel l).1, ∀ x ∈ c, x ∈ l) ∧
    (∀ x ∈ (splitFull size fuel l).2, x ∈ l) := by
  have h := splitFull_flatten size fuel l
  constructor
  · intro c hc x hx
    rw [← h]
    exact List.mem_append_left _ (List.mem_flatten.mpr ⟨c, hc, hx⟩)
  · intro x hx
    rw [← h]
    exact List.mem_append_right _ hx

theorem CompressedVectorWriter.write_inv (cs : List Bool → Nat) (packetRecords : Nat)
    (w : CompressedVectorWriter) (batch written : List Record)
    (hopen : w.isOpen = true)
    (hinv : ∃ chunks : List (List Record), w.packets = chunks.map (encodePacket cs) ∧
      (∀ c ∈ chunks, ∀ r ∈ c, r.valid = true) ∧ (∀ r ∈ w.pending, r.valid = true) ∧
      chunks.flatten ++ w.pending = written)
    (hbatch : ∀ r ∈ batch, r.valid = true) :
    ∃ w2, CompressedVectorWriter.write cs packetRecords w batch batch.length = .ok w2 ∧
      w2.isOpen = true ∧
      ∃ chunks : List (List Record), w2.packets = chunks.map (encodePacket cs) ∧
        (∀ c ∈ chunks, ∀ r ∈ c, r.valid = true) ∧ (∀ r ∈ w2.pending, r.valid = true) ∧
        chunks.flatten ++ w2.pending = written ++ batch := by
  obtain ⟨chunks, hp, hcv, hpv, hw⟩ := hinv
  have hall : (batch.take batch.length).all Record.valid = true := by
    rw [List.take_length, List.all_eq_true]
    exact hbatch
  have hmem : ∀ r ∈ w.pending ++ batch, r.valid = true := by
    intro r hr
    rcases List.mem_append.mp hr with h | h
    · exact hpv r h
    · exact hbatch r h
  have hsplit := splitFull_flatten packetRecords (w.pending ++ batch).length (w.pending ++ batch)
  have hsm := splitFull_mem packetRecords (w.pending ++ batch).length (w.pending ++ batch)
  refine ⟨(⟨true,
      (splitFull packetRecords (w.pending ++ batch).length (w.pending ++ batch)).2,
      w.packets ++
        (splitFull packetRecords (w.pending ++ batch).length
          (w.pending ++ batch)).1.map (encodePacket cs)⟩ : CompressedVectorWriter),
    ?_, rfl, chunks ++
    (splitFull packetRecords (w.pending ++ batch).length (w.pending ++ batch)).1, ?_, ?_, ?_, ?_⟩
  · unfold CompressedVectorWriter.write
    rw [if_neg (by simp [hopen])]
    simp only
    rw [if_pos hall, List.take_length]
  · simp only [hp, List.map_append]
  · intro c hc r hr
    rcases List.mem_append.mp hc with h | h
    · exact hcv c h r hr
    · exact hmem r (hsm.1 c h r hr)
  · intro r hr
    exact hmem r (hsm.2 r hr)
  · simp only [List.flatten_append, List.append_assoc]
    rw [hsplit, ← List.append_assoc, hw]

theorem writeBatches_inv (cs : List Bool → Nat) (packetRecords : Nat)
    (batches : List (List Record)) (w : CompressedVectorWriter) (written : List Record)
    (hopen : w.isOpen = true)
    (hinv : ∃ chunks : List (List Record), w.packets = chunks.map (encodePacket cs) ∧
      (∀ c ∈ chunks, ∀ r ∈ c, r.valid = true) ∧ (∀ r ∈ w.pending, r.valid = true) ∧
      chunks.flatten ++ w.pending = written)
    (hvalid : ∀ b ∈ batches, ∀ r ∈ b, r.valid = true) :
    ∃ w2, writeBatches cs packetRecords w batches = .ok w2 ∧ w2.isOpen = true ∧
      ∃ chunks : List (List Record), w2.packets = chunks.map (encodePacket cs) ∧
        (∀ c ∈ chunks, ∀ r ∈ c, r.valid = true) ∧ (∀ r ∈ w2.pending, r.valid = true) ∧
        chunks.flatten ++ w2.pending = written ++ batches.flatten := by
  induction batches generalizing w written with
  | nil =>
    refine ⟨w, rfl, hopen, ?_⟩
    simpa using hinv
  | cons batch rest ih =>
    have hb : ∀ r ∈ batch, r.valid = true := hvalid batch (List.mem_cons_self _ _)
    have hrest : ∀ b ∈ rest, ∀ r ∈ b, r.valid = true :=
      fun b hb => hvalid b (List.mem_cons_of_mem _ hb)
    obtain ⟨w1, hw1, hopen1, hinv1⟩ :=
      CompressedVectorWriter.write_inv cs packetRecords w batch written hopen hinv hb
    obtain ⟨w2, hw2, hopen2, hinv2⟩ := ih w1 (written ++ batch) hopen1 hinv1 hrest
    refine ⟨w2, ?_, hopen2, ?_⟩
    · simp only [writeBatches, hw1]
      exact hw2
    · simpa [List.append_assoc] using hinv2

theorem CompressedVectorWriter.close_inv (policy : ClosePolicy) (cs : List Bool → Nat)
    (w : CompressedVectorWriter) (written : List Record) (hopen : w.isOpen = true)
    (hinv : ∃ chunks : List (List Record), w.packets = chunks.map (encodePacket cs) ∧
      (∀ c ∈ chunks, ∀ r ∈ c, r.valid = true) ∧ (∀ r ∈ w.pending, r.valid = true) ∧
      chunks.flatten ++ w.pending = written) :
    ∃ closed, CompressedVectorWriter.close policy cs w = .ok closed ∧ closed.isOpen = false ∧
      ∃ chunks : List (List Record), closed.packets = chunks.map (encodePacket cs) ∧
        (∀ c ∈ chunks, ∀ r ∈ c, r.valid = true) ∧ chunks.flatten = written := by
  obtain ⟨chunks, hp, hcv, hpv, hw⟩ := hinv
  unfold CompressedVectorWriter.close
  rw [if_pos hopen]
  refine ⟨_, rfl, rfl, ?_⟩
  by_cases hpend : w.pending = []
  · refine ⟨chunks, ?_, hcv, ?_⟩
    · simp [hpend, hp]
    · rw [hpend, List.append_nil] at hw
      exact hw
  · refine ⟨chunks ++ [w.pending], ?_, ?_, ?_⟩
    · simp [hpend, hp]
    · intro c hc r hr
      rcases List.mem_append.mp hc with h | h
      · exact hcv c h r hr
      · rw [List.mem_singleton] at h
        subst h
        exact hpv r hr
    · simp [hw]

theorem drop_length_take {α : Type} (l : List α) (c : Nat) :
    l.drop (l.take c).length = l.drop c := by
  rw [List.length_take]
  by_cases h : c ≤ l.length
  · rw [Nat.min_eq_left h]
  · have h2 : l.length ≤ c := by omega
    rw [Nat.min_eq_right h2, List.drop_length, List.drop_eq_nil_of_le h2]

theorem readUntilEnd_all (cs : List Bool → Nat) (checked : Nat → Bool) (capacity : Nat)
    (hcap : 0 < capacity) (all : List Record) (fuel : Nat) (r : CompressedVectorReader)
    (hopen : r.isOpen = true) (hdec : decodeStream cs checked 0 r.packets = .ok all)
    (hfuel : all.length - r.recordNumber < fuel) :
    readUntilEnd cs checked capacity fuel r = some (.ok (all.drop r.recordNumber)) := by
  induction fuel generalizing r with
  | zero => omega
  | succ fuel ih =>
    have hread : CompressedVectorReader.read cs checked r capacity =
        .ok ((all.drop r.recordNumber).take capacity,
          { r with recordNumber :=
              r.recordNumber + ((all.drop r.recordNumber).take capacity).length }) := by
      unfold CompressedVectorReader.read
      rw [if_neg (by simp [hopen]), hdec]
    simp only [readUntilEnd, hread]
    by_cases hz : ((all.drop r.recordNumber).take capacity).length = 0
    · rw [if_pos hz]
      have hnil : all.drop r.recordNumber = [] := by
        rw [List.length_take] at hz
        have : (all.drop r.recordNumber).length = 0 := by omega
        exact List.length_eq_zero.mp this
      rw [hnil]
    · rw [if_neg hz]
      have hlen : ((all.drop r.recordNumber).take capacity).length ≤
          all.length - r.recordNumber := by
        rw [List.length_take, List.length_drop]
        exact Nat.min_le_right _ _
      have hrec := ih
        { r with recordNumber :=
            r.recordNumber + ((all.drop r.recordNumber).take capacity).length }
        hopen hdec (by simp only; omega)
      rw [hrec]
      simp only
      have hdd : all.drop
          (r.recordNumber + ((all.drop r.recordNumber).take capacity).length) =
          (all.drop r.recordNumber).drop capacity := by
        rw [← drop_length_take (all.drop r.recordNumber) capacity, List.drop_drop]
      rw [hdd, List.take_append_drop]

/-- C15: for every sequence of records over `{a: Integer[0,1023], b: Float64}`
(each `a` within its bounds, each `b` a 64-bit pattern), however the caller
splits it into write batches, whatever the packet size, the checksum function,
the packets the checksum policy verifies, the close policy and the reader's
buffer capacity (at least 1): writing the batches, closing the writer and
reading back through a fresh reader until a read returns 0 yields exactly the
same records in the original order, field `a` and the bit pattern of field
`b` unchanged, given fuel for one read more than there are records. -/
theorem record_round_trip (policy : ClosePolicy) (cs : List Bool → Nat) (checked : Nat → Bool)
    (packetRecords capacity fuel : Nat) (records : List Record)
    (batches : List (List Record)) (hsplit : batches.flatten = records)
    (hvalid : ∀ r ∈ records, r.valid = true) (hcap : 0 < capacity)
    (hfuel : records.length < fuel) :
    roundTrip policy cs checked packetRecords capacity fuel batches = some (.ok records) ∧
    (∃ w closed, writeBatches cs packetRecords (CompressedVectorNode.writer ⟨[]⟩) batches =
        .ok w ∧ CompressedVectorWriter.close policy cs w = .ok closed ∧
        closed.isOpen = false ∧
        decodeStream cs checked 0 closed.packets = .ok records) ∧
    (∀ out, roundTrip policy cs checked packetRecords capacity fuel batches = some (.ok out) →
      out.length = records.length ∧
      out.map (fun r => r.a) = records.map (fun r => r.a) ∧
      out.map (fun r => r.b.bits) = records.map (fun r => r.b.bits)) := by
  have hb : ∀ b ∈ batches, ∀ r ∈ b, r.valid = true := by
    intro b hb r hr
    apply hvalid
    rw [← hsplit]
    exact List.mem_flatten.mpr ⟨b, hb, hr⟩
  obtain ⟨w, hw, hopen, hinv⟩ := writeBatches_inv cs packetRecords batches
    (CompressedVectorNode.writer ⟨[]⟩) [] rfl
    ⟨[], rfl, by simp, by simp [CompressedVectorNode.writer], rfl⟩ hb
  rw [List.nil_append, hsplit] at hinv
  obtain ⟨closed, hclose, hclosed, chunks, hpk, hcv, hflat⟩ :=
    CompressedVectorWriter.close_inv policy cs w records hopen hinv
  have hdec : decodeStream cs checked 0 closed.packets = .ok records := by
    rw [hpk, decodeStream_encode cs checked 0 chunks hcv, hflat]
  have hrt : roundTrip policy cs checked packetRecords capacity fuel batches =
      some (.ok records) := by
    unfold roundTrip
    rw [hw]
    simp only
    rw [hclose]
    simp only
    have h := readUntilEnd_all cs checked capacity hcap records fuel
      (CompressedVectorNode.reader ⟨closed.packets⟩) rfl hdec
      (by simp only [CompressedVectorNode.reader]; omega)
    rw [h]
    rfl
  refine ⟨hrt, ⟨w, closed, hw, hclose, hclosed, hdec⟩, ?_⟩
  intro out hout
  rw [hrt] at hout
  injection hout with hout
  injection hout with hout
  subst hout
  exact ⟨rfl, rfl, rfl⟩

/-- Witness for C15: three records written in two batches, packets of two
records, read back through buffers of capacity two. -/
theorem record_round_trip_witness :
    ([[⟨5, ⟨77⟩⟩, ⟨1023, ⟨0⟩⟩], [⟨0, ⟨9223372036854775808⟩⟩]] : List (List Record)).flatten =
      [⟨5, ⟨77⟩⟩, ⟨1023, ⟨0⟩⟩, ⟨0, ⟨9223372036854775808⟩⟩] ∧
    (∀ r ∈ ([⟨5, ⟨77⟩⟩, ⟨1023, ⟨0⟩⟩, ⟨0, ⟨9223372036854775808⟩⟩] : List Record),
      r.valid = true) ∧
    roundTrip .noop (fun bits => bits.length) (fun _ => true) 2 2 4
        [[⟨5, ⟨77⟩⟩, ⟨1023, ⟨0⟩⟩], [⟨0, ⟨9223372036854775808⟩⟩]] =
      some (.ok [⟨5, ⟨77⟩⟩, ⟨1023, ⟨0⟩⟩, ⟨0, ⟨9223372036854775808⟩⟩]) :=
  ⟨rfl, by decide,
   (record_round_trip .noop (fun bits => bits.length) (fun _ => true) 2 2 4
      [⟨5, ⟨77⟩⟩, ⟨1023, ⟨0⟩⟩, ⟨0, ⟨9223372036854775808⟩⟩]
      [[⟨5, ⟨77⟩⟩, ⟨1023, ⟨0⟩⟩], [⟨0, ⟨9223372036854775808⟩⟩]] rfl (by decide) (by decide)
      (by decide)).1⟩

/-! ## The node tree: attachment -/

theorem length_modifyAt {α : Type} (l : List α) (i : Nat) (f : α → α) :
    (modifyAt l i f).length = l.length := by
  unfold modifyAt
  cases l[i]? <;> simp

theorem getElem?_modifyAt {α : Type} (l : List α) (i j : Nat) (f : α → α) :
    (modifyAt l i f)[j]? = if j = i then (l[j]?).map f else l[j]? := by
  unfold modifyAt
  cases h : l[i]? with
  | none =>
    by_cases hji : j = i
    · subst hji
      simp [h]
    · simp [hji]
  | some a =>
    simp only [List.getElem?_set]
    by_cases hji : j = i
    · subst hji
      have hlt : j < l.length := by
        rcases List.getElem?_eq_some.mp h with ⟨hlt, _⟩
        exact hlt
      simp [hlt, h]
    · have hij : ¬ i = j := fun e => hji e.symm
      simp [hji, hij]

theorem NodeTree.length_link (t : NodeTree) (p c : Nat) (name : String) :
    (t.link p c name).nodes.length = t.nodes.length := by
  simp [NodeTree.link, length_modifyAt]

theorem NodeTree.root_link (t : NodeTree) (p c : Nat) (name : String) :
    (t.link p c name).root = t.root := rfl

theorem NodeTree.nodes_link (t : NodeTree) (p c n : Nat) (name : String) :
    (t.link p c name).nodes[n]? = (t.nodes[n]?).map (fun x =>
      { type := x.type,
        elementName := if n = c then name else x.elementName,
        parent := if n = c then some p else x.parent,
        children := if n = p then x.children ++ [c] else x.children,
        allowHeteroChildren := x.allowHeteroChildren }) := by
  unfold NodeTree.link
  simp only [getElem?_modifyAt]
  by_cases hnp : n = p
  · subst hnp
    by_cases hnc : n = c
    · subst hnc
      cases h : t.nodes[n]? <;> simp [h]
    · cases h : t.nodes[n]? <;> simp [h, hnc]
  · by_cases hnc : n = c
    · subst hnc
      cases h : t.nodes[n]? <;> simp [h, hnp]
    · cases h : t.nodes[n]? <;> simp [h, hnp, hnc]

theorem NodeTree.parentOf_link_self (t : NodeTree) (p c : Nat) (name : String)
    (hc : c < t.nodes.length) : (t.link p c name).parentOf c = some p := by
  unfold NodeTree.parentOf
  rw [NodeTree.nodes_link, List.getElem?_eq_getElem hc]
  simp

theorem NodeTree.parentOf_link_other (t : NodeTree) (p c n : Nat) (name : String)
    (hn : n ≠ c) : (t.link p c name).parentOf n = t.parentOf n := by
  unfold NodeTree.parentOf
  rw [NodeTree.nodes_link]
  cases t.nodes[n]? <;> simp [hn]

theorem NodeTree.parentOf_link_isSome (t : NodeTree) (p c n : Nat) (name : String)
    (h : (t.parentOf n).isSome = true) : ((t.link p c name).parentOf n).isSome = true := by
  by_cases hn : n = c
  · subst hn
    have hlt : n < t.nodes.length := by
      by_contra hge
      have : t.nodes[n]? = none := List.getElem?_eq_none (by omega)
      simp [NodeTree.parentOf, this] at h
    rw [NodeTree.parentOf_link_self t p n name hlt]
    rfl
  · rw [NodeTree.parentOf_link_other t p c n name hn]
    exact h

theorem NodeTree.parentOf_construct (t : NodeTree) (type : NodeType) (allow : Bool) (n : Nat) :
    (t.construct type allow).1.parentOf n = t.parentOf n := by
  unfold NodeTree.parentOf NodeTree.construct
  simp only
  by_cases hlt : n < t.nodes.length
  · rw [List.getElem?_append_left hlt]
  · by_cases heq : n = t.nodes.length
    · subst heq
      simp
    · have h1 : t.nodes[n]? = none := List.getElem?_eq_none (by omega)
      rw [h1, List.getElem?_eq_none (by simp; omega)]

/-- A walk inside a table of `N` entries that ever arrives at a fixed point
`root` has arrived there after `N - 1` steps. -/
theorem iterate_reach_bound (f : Nat → Nat) (N root n : Nat)
    (hclosed : ∀ x, x < N → f x < N) (hroot : f root = root) (hn : n < N)
    (hex : ∃ m, f^[m] n = root) : f^[N - 1] n = root := by
  classical
  have hlt : ∀ k, f^[k] n < N := by
    intro k
    induction k with
    | zero => exact hn
    | succ k ih =>
      rw [Function.iterate_succ_apply']
      exact hclosed _ ih
  have hk0 : f^[Nat.find hex] n = root := Nat.find_spec hex
  have hmin : ∀ m, m < Nat.find hex → f^[m] n ≠ root := fun m hm => Nat.find_min hex hm
  have hno : ∀ a b, a < b → b ≤ Nat.find hex → f^[a] n = f^[b] n → False := by
    intro a b hab hb heq
    have h1 : f^[Nat.find hex - b + a] n = root := by
      rw [Function.iterate_add_apply, heq, ← Function.iterate_add_apply,
        Nat.sub_add_cancel hb]
      exact hk0
    exact hmin _ (by omega) h1
  have hk0lt : Nat.find hex < N := by
    by_contra hge
    have hge2 : N ≤ Nat.find hex := by omega
    obtain ⟨i, j, hij, hg⟩ := Fintype.exists_ne_map_eq_of_card_lt
      (fun i : Fin (N + 1) => (⟨f^[i.val] n, hlt i.val⟩ : Fin N)) (by simp)
    have hval : f^[i.val] n = f^[j.val] n := by
      have := congrArg Fin.val hg
      simpa using this
    have hne : i.val ≠ j.val := fun h => hij (Fin.ext h)
    have hi : i.val ≤ N := by omega
    have hj : j.val ≤ N := by omega
    rcases Nat.lt_or_gt_of_ne hne with h | h
    · exact hno i.val j.val h (by omega) hval
    · exact hno j.val i.val h (by omega) hval.symm
  have hsplit : N - 1 = (N - 1 - Nat.find hex) + Nat.find hex := by omega
  rw [hsplit, Function.iterate_add_apply, hk0]
  exact Function.iterate_fixed hroot _

theorem NodeTree.wellFormed_iff (t : NodeTree) :
    t.wellFormed = true ↔
      t.root < t.nodes.length ∧ t.parentOf t.root = none ∧
        ∀ n p, t.parentOf n = some p → p < t.nodes.length := by
  unfold NodeTree.wellFormed
  simp only [Bool.and_eq_true, decide_eq_true_eq, Option.isNone_iff_eq_none, List.all_eq_true]
  constructor
  · rintro ⟨⟨h1, h2⟩, h3⟩
    refine ⟨h1, h2, ?_⟩
    intro n p hnp
    unfold NodeTree.parentOf at hnp
    cases hx : t.nodes[n]? with
    | none => simp [hx] at hnp
    | some x =>
      rw [hx] at hnp
      simp only [Option.some_bind] at hnp
      have hmem : x ∈ t.nodes := by
        rcases List.getElem?_eq_some.mp hx with ⟨hlt, heq⟩
        rw [← heq]
        exact List.getElem_mem hlt
      have := h3 x hmem
      rw [hnp] at this
      simpa using this
  · rintro ⟨h1, h2, h3⟩
    refine ⟨⟨h1, h2⟩, ?_⟩
    intro x hx
    cases hp : x.parent with
    | none => rfl
    | some p =>
      obtain ⟨n, hlt, hn⟩ := List.getElem_of_mem hx
      simp only [decide_eq_true_eq]
      apply h3 n p
      unfold NodeTree.parentOf
      rw [List.getElem?_eq_getElem hlt, hn]
      simpa using hp

theorem NodeTree.up_of_parentless (t : NodeTree) (x : Nat) (h : t.parentOf x = none) :
    t.up x = x := by
  unfold NodeTree.up
  rw [h]
  rfl

theorem NodeTree.isAttached_of_parentless (t : NodeTree) (x : Nat) (h : t.parentOf x = none) :
    t.isAttached x = decide (x = t.root) := by
  unfold NodeTree.isAttached
  rw [Function.iterate_fixed (NodeTree.up_of_parentless t x h)]

theorem NodeTree.up_link_self (t : NodeTree) (p c : Nat) (name : String)
    (hc : c < t.nodes.length) : (t.link p c name).up c = p := by
  unfold NodeTree.up
  rw [NodeTree.parentOf_link_self t p c name hc]
  rfl

theorem NodeTree.up_link_other (t : NodeTree) (p c x : Nat) (name : String) (hx : x ≠ c) :
    (t.link p c name).up x = t.up x := by
  unfold NodeTree.up
  rw [NodeTree.parentOf_link_other t p c x name hx]

/-- Attaching a parentless, unattached node under an attached parent makes it
attached; the parent may be judged before or after the attachment. -/
theorem NodeTree.isAttached_link (t : NodeTree) (p c : Nat) (name : String)
    (hwf : t.wellFormed = true) (hp : p < t.nodes.length) (hc : c < t.nodes.length)
    (hpar : t.parentOf c = none) (hdet : t.isAttached c = false)
    (hatt : t.isAttached p = true ∨ (t.link p c name).isAttached p = true) :
    (t.link p c name).isAttached c = true := by
  obtain ⟨hroot, hrootpar, hvalid⟩ := (NodeTree.wellFormed_iff t).mp hwf
  have hcroot : c ≠ t.root := by
    intro h
    rw [NodeTree.isAttached_of_parentless t c hpar, h] at hdet
    simp at hdet
  have hupc : t.up c = c := NodeTree.up_of_parentless t c hpar
  have huproot : t.up t.root = t.root := NodeTree.up_of_parentless t t.root hrootpar
  have hlen : (t.link p c name).nodes.length = t.nodes.length := NodeTree.length_link t p c name
  -- the walk from an attached parent in the old tree is the same in the new one
  have hold : t.isAttached p = true → (t.link p c name).isAttached p = true := by
    intro h
    unfold NodeTree.isAttached at h
    have hN : (t.up)^[t.nodes.length] p = t.root := by simpa using h
    have havoid : ∀ m, (t.up)^[m] p ≠ c := by
      intro m hm
      have h1 : (t.up)^[t.nodes.length + m] p = c := by
        rw [Function.iterate_add_apply, hm]
        exact Function.iterate_fixed hupc _
      have h2 : (t.up)^[m + t.nodes.length] p = t.root := by
        rw [Function.iterate_add_apply, hN]
        exact Function.iterate_fixed huproot _
      rw [Nat.add_comm] at h1
      exact hcroot (h1.symm.trans h2)
    have hsame : ∀ m, ((t.link p c name).up)^[m] p = (t.up)^[m] p := by
      intro m
      induction m with
      | zero => rfl
      | succ m ih =>
        rw [Function.iterate_succ_apply', Function.iterate_succ_apply', ih,
          NodeTree.up_link_other t p c _ name (havoid m)]
    unfold NodeTree.isAttached
    rw [hlen, hsame, hN, NodeTree.root_link]
    simp
  have hnew : (t.link p c name).isAttached p = true := by
    rcases hatt with h | h
    · exact hold h
    · exact h
  unfold NodeTree.isAttached at hnew
  have hN : ((t.link p c name).up)^[t.nodes.length] p = t.root := by
    rw [hlen] at hnew
    simpa [NodeTree.root_link] using hnew
  have hclosed : ∀ x, x < t.nodes.length → (t.link p c name).up x < t.nodes.length := by
    intro x hx
    by_cases hxc : x = c
    · subst hxc
      rw [NodeTree.up_link_self t p x name hx]
      exact hp
    · rw [NodeTree.up_link_other t p c x name hxc]
      unfold NodeTree.up
      cases hpx : t.parentOf x with
      | none => exact hx
      | some q => exact hvalid x q hpx
  have hfix : (t.link p c name).up t.root = t.root := by
    rw [NodeTree.up_link_other t p c t.root name (fun h => hcroot h.symm)]
    exact huproot
  have hbound := iterate_reach_bound (t.link p c name).up t.nodes.length t.root p hclosed hfix hp
    ⟨_, hN⟩
  unfold NodeTree.isAttached
  rw [hlen, NodeTree.root_link]
  have hsucc : t.nodes.length = (t.nodes.length - 1) + 1 := by omega
  rw [hsucc, Function.iterate_succ_apply, NodeTree.up_link_self t p c name hc, hbound]
  simp

theorem StructureNode.set_dispatch (node : StructureNode) (pathName : String) (cls : PyClass)
    (n : Node) :
    StructureNode.set node pathName ⟨cls, n⟩ =
      if cls ∈ StructureNode.set_overloads then .ok (.set node pathName n)
      else .error .type_error := by
  cases cls <;> rfl

theorem VectorNode.append_dispatch (v : VectorNode) (cls : PyClass) (n : Node) :
    VectorNode.append v ⟨cls, n⟩ =
      if cls ∈ VectorNode.append_overloads then .ok (.append v n)
      else .error .type_error := by
  cases cls <;> rfl

theorem NodeTree.set_eq (t : NodeTree) (node : Nat) (pathName : String) (n : PyRef) :
    t.set node pathName n =
      if n.cls ∈ StructureNode.set_overloads then t.lib_set node pathName n.id
      else .error .type_error := by
  unfold NodeTree.set
  rw [StructureNode.set_dispatch]
  split_ifs <;> rfl

theorem NodeTree.append_eq (t : NodeTree) (v : Nat) (node : PyRef) :
    t.append v node =
      if node.cls ∈ VectorNode.append_overloads then t.lib_append v node.id
      else .error .type_error := by
  unfold NodeTree.append
  rw [VectorNode.append_dispatch]
  split_ifs <;> rfl

theorem NodeTree.set_ok_inv (t t2 : NodeTree) (node : Nat) (pathName : String) (n : PyRef)
    (h : t.set node pathName n = .ok t2) :
    n.cls ∈ StructureNode.set_overloads ∧ t.parentOf n.id = none ∧
      t.isAttached n.id = false ∧ t2 = t.link node n.id pathName := by
  rw [NodeTree.set_eq] at h
  split_ifs at h with hcls
  unfold NodeTree.lib_set at h
  split_ifs at h with h1 h2
  injection h with h
  have h1' : ¬ (t.parentOf n.id).isSome = true ∧ ¬ t.isAttached n.id = true := by
    constructor
    · exact fun hh => h1 (Or.inl hh)
    · exact fun hh => h1 (Or.inr hh)
  refine ⟨hcls, ?_, ?_, h.symm⟩
  · cases hp : t.parentOf n.id with
    | none => rfl
    | some q => exact absurd (by rw [hp]; rfl) h1'.1
  · cases ha : t.isAttached n.id with
    | false => rfl
    | true => exact absurd ha h1'.2

theorem NodeTree.append_ok_inv (t t2 : NodeTree) (v : Nat) (n : PyRef)
    (h : t.append v n = .ok t2) :
    n.cls ∈ VectorNode.append_overloads ∧ t.parentOf n.id = none ∧
      t.isAttached n.id = false ∧ t.violatesHomogeneity v n.id = false ∧
      t2 = t.link v n.id (toString (t.childrenOf v).length) := by
  rw [NodeTree.append_eq] at h
  split_ifs at h with hcls
  unfold NodeTree.lib_append at h
  split_ifs at h with h1 h2
  injection h with h
  have h1' : ¬ (t.parentOf n.id).isSome = true ∧ ¬ t.isAttached n.id = true := by
    constructor
    · exact fun hh => h1 (Or.inl hh)
    · exact fun hh => h1 (Or.inr hh)
  refine ⟨hcls, ?_, ?_, ?_, h.symm⟩
  · cases hp : t.parentOf n.id with
    | none => rfl
    | some q => exact absurd (by rw [hp]; rfl) h1'.1
  · cases ha : t.isAttached n.id with
    | false => rfl
    | true => exact absurd ha h1'.2
  · cases hv : t.violatesHomogeneity v n.id with
    | false => rfl
    | true => exact absurd hv h2

/-- An operation changes the tree, if at all, by constructing a node or by
linking the node it attaches, which then had no parent and was not attached. -/
theorem NodeTree.step_cases (t : NodeTree) (op : TreeOp) :
    t.step op = t ∨ (∃ type allow, t.step op = (t.construct type allow).1) ∨
      ∃ p c name, op.child = some c ∧ t.parentOf c = none ∧ t.isAttached c = false ∧
        t.step op = t.link p c name := by
  cases op with
  | construct type allow => exact Or.inr (Or.inl ⟨type, allow, rfl⟩)
  | set node pathName n =>
    simp only [NodeTree.step]
    cases h : t.set node pathName n with
    | error e => exact Or.inl rfl
    | ok t2 =>
      obtain ⟨_, hpar, hdet, heq⟩ := NodeTree.set_ok_inv t t2 node pathName n h
      exact Or.inr (Or.inr ⟨node, n.id, pathName, rfl, hpar, hdet, heq⟩)
  | append v n =>
    simp only [NodeTree.step]
    cases h : t.append v n with
    | error e => exact Or.inl rfl
    | ok t2 =>
      obtain ⟨_, hpar, hdet, _, heq⟩ := NodeTree.append_ok_inv t t2 v n h
      exact Or.inr (Or.inr ⟨v, n.id, _, rfl, hpar, hdet, heq⟩)

theorem NodeTree.step_parent_isSome (t : NodeTree) (op : TreeOp) (n : Nat)
    (h : (t.parentOf n).isSome = true) : ((t.step op).parentOf n).isSome = true := by
  rcases NodeTree.step_cases t op with h1 | ⟨type, allow, h1⟩ | ⟨p, c, name, _, _, _, h1⟩
  · rw [h1]
    exact h
  · rw [h1, NodeTree.parentOf_construct]
    exact h
  · rw [h1]
    exact NodeTree.parentOf_link_isSome t p c n name h

theorem NodeTree.run_parent_isSome (t : NodeTree) (ops : List TreeOp) (n : Nat)
    (h : (t.parentOf n).isSome = true) : ((t.run ops).parentOf n).isSome = true := by
  induction ops generalizing t with
  | nil => exact h
  | cons op ops ih =>
    exact ih (t.step op) (NodeTree.step_parent_isSome t op n h)

theorem NodeTree.step_other (t : NodeTree) (op : TreeOp) (x : Nat)
    (hx : op.child ≠ some x) :
    (t.step op).parentOf x = t.parentOf x ∧ (t.step op).root = t.root := by
  rcases NodeTree.step_cases t op with h1 | ⟨type, allow, h1⟩ | ⟨p, c, name, hc, _, _, h1⟩
  · rw [h1]
    exact ⟨rfl, rfl⟩
  · rw [h1]
    exact ⟨NodeTree.parentOf_construct t type allow x, rfl⟩
  · rw [h1]
    have hne : x ≠ c := by
      intro h
      subst h
      exact hx hc
    exact ⟨NodeTree.parentOf_link_other t p c x name hne, rfl⟩

theorem NodeTree.run_other (t : NodeTree) (ops : List TreeOp) (x : Nat)
    (hx : ∀ op ∈ ops, op.child ≠ some x) :
    (t.run ops).parentOf x = t.parentOf x ∧ (t.run ops).root = t.root := by
  induction ops generalizing t with
  | nil => exact ⟨rfl, rfl⟩
  | cons op ops ih =>
    have h1 := NodeTree.step_other t op x (hx op (List.mem_cons_self _ _))
    have h2 := ih (t.step op) (fun o ho => hx o (List.mem_cons_of_mem _ ho))
    exact ⟨h2.1.trans h1.1, h2.2.trans h1.2⟩

theorem NodeTree.attach_again_fails (t : NodeTree) (q : Nat) (name : String) (c : PyRef)
    (hcls : c.cls ∈ StructureNode.set_overloads)
    (hpar : (t.parentOf c.id).isSome = true) :
    t.set q name c = .error (.e57 (E57_EXCEPTION .E57_ERROR_ALREADY_HAS_PARENT)) ∧
    t.append q c = .error (.e57 (E57_EXCEPTION .E57_ERROR_ALREADY_HAS_PARENT)) := by
  have hcls2 : c.cls ∈ VectorNode.append_overloads := hcls
  constructor
  · rw [NodeTree.set_eq, if_pos hcls]
    unfold NodeTree.lib_set
    rw [if_pos (Or.inl hpar)]
  · rw [NodeTree.append_eq, if_pos hcls2]
    unfold NodeTree.lib_append
    rw [if_pos (Or.inl hpar)]

theorem NodeTree.step_root (t : NodeTree) (op : TreeOp) (h : t.parentOf t.root = none) :
    (t.step op).root = t.root ∧ (t.step op).parentOf t.root = none := by
  rcases NodeTree.step_cases t op with h1 | ⟨type, allow, h1⟩ | ⟨p, c, name, _, hpar, hdet, h1⟩
  · rw [h1]
    exact ⟨rfl, h⟩
  · rw [h1]
    exact ⟨rfl, (NodeTree.parentOf_construct t type allow t.root).trans h⟩
  · rw [h1]
    have hne : t.root ≠ c := by
      intro hc
      rw [NodeTree.isAttached_of_parentless t c hpar, ← hc] at hdet
      simp at hdet
    exact ⟨rfl, (NodeTree.parentOf_link_other t p c t.root name hne).trans h⟩

theorem NodeTree.run_root (t : NodeTree) (ops : List TreeOp) (h : t.parentOf t.root = none) :
    (t.run ops).root = t.root ∧ (t.run ops).parentOf t.root = none ∧
      (t.run ops).isAttached t.root = true := by
  induction ops generalizing t with
  | nil =>
    refine ⟨rfl, h, ?_⟩
    show t.isAttached t.root = true
    rw [NodeTree.isAttached_of_parentless t t.root h]
    simp
  | cons op ops ih =>
    obtain ⟨h1, h2⟩ := NodeTree.step_root t op h
    have h3 := ih (t.step op) (by rw [h1]; exact h2)
    rw [h1] at h3
    exact h3

/-- C12, as stated, fails at the root: the root of a newly created container
has no parent and is never set or appended (an attempt to is refused), yet it
reports `isAttached() = true`, at once and after any sequence of
operations. -/
theorem root_attached_never_set :
    NodeTree.create.parentOf NodeTree.create.root = none ∧
    NodeTree.create.isAttached NodeTree.create.root = true ∧
    (NodeTree.create.run
        [.construct .E57_INTEGER false, .set 0 "count" ⟨.IntegerNode, 1⟩]).isAttached
      NodeTree.create.root = true ∧
    (∀ ops : List TreeOp, (∀ op ∈ ops, op.child ≠ some NodeTree.create.root) →
      (NodeTree.create.run ops).isAttached NodeTree.create.root = true) := by
  refine ⟨by decide, by decide, by decide, ?_⟩
  intro ops _
  exact (NodeTree.run_root NodeTree.create ops (by decide)).2.2

/-- C12, amended: in a consistent tree, after `StructureNode.set` or `VectorNode.append`
succeeds on a child, the child reports `isAttached() = true` whenever its new
parent is attached (judged before or after the call); after any further
sequence of operations every attempt to `set` or `append` the same child, to
any parent under any name, fails with AlreadyHasParent; and a node other than
the root that has no parent and is never the child of a `set` or `append`
reports `isAttached() = false` after any sequence of operations. -/
theorem attachment_invariant (t t2 : NodeTree) (p : Nat) (name : String) (c : PyRef)
    (hwf : t.wellFormed = true) (hp : p < t.nodes.length) (hc : c.id < t.nodes.length)
    (hattach : t.set p name c = .ok t2 ∨ t.append p c = .ok t2) :
    ((t.isAttached p = true ∨ t2.isAttached p = true) → t2.isAttached c.id = true) ∧
    (∀ (ops : List TreeOp) (q : Nat) (name2 : String),
      (t2.run ops).set q name2 c =
        .error (.e57 (E57_EXCEPTION .E57_ERROR_ALREADY_HAS_PARENT)) ∧
      (t2.run ops).append q c =
        .error (.e57 (E57_EXCEPTION .E57_ERROR_ALREADY_HAS_PARENT))) ∧
    (∀ (x : Nat) (ops : List TreeOp), x ≠ t.root → t.parentOf x = none →
      (∀ op ∈ ops, op.child ≠ some x) → (t.run ops).isAttached x = false) := by
  have hfacts : ∃ nm, c.cls ∈ StructureNode.set_overloads ∧ t.parentOf c.id = none ∧
      t.isAttached c.id = false ∧ t2 = t.link p c.id nm := by
    rcases hattach with h | h
    · obtain ⟨h1, h2, h3, h4⟩ := NodeTree.set_ok_inv t t2 p name c h
      exact ⟨_, h1, h2, h3, h4⟩
    · obtain ⟨h1, h2, h3, _, h4⟩ := NodeTree.append_ok_inv t t2 p c h
      exact ⟨_, h1, h2, h3, h4⟩
  obtain ⟨nm, hcls, hpar, hdet, heq⟩ := hfacts
  subst heq
  refine ⟨?_, ?_, ?_⟩
  · intro hatt
    exact NodeTree.isAttached_link t p c.id nm hwf hp hc hpar hdet hatt
  · intro ops q name2
    apply NodeTree.attach_again_fails _ q name2 c hcls
    apply NodeTree.run_parent_isSome
    rw [NodeTree.parentOf_link_self t p c.id nm hc]
    rfl
  · intro x ops hx hxpar hops
    obtain ⟨h1, h2⟩ := NodeTree.run_other t ops x hops
    rw [NodeTree.isAttached_of_parentless _ x (h1.trans hxpar), h2]
    simp [hx]

theorem NodeTree.wellFormed_link (t : NodeTree) (p c : Nat) (name : String)
    (hwf : t.wellFormed = true) (hp : p < t.nodes.length) (hc : c ≠ t.root) :
    (t.link p c name).wellFormed = true := by
  obtain ⟨hroot, hrootpar, hvalid⟩ := (NodeTree.wellFormed_iff t).mp hwf
  rw [NodeTree.wellFormed_iff, NodeTree.length_link, NodeTree.root_link]
  refine ⟨hroot, ?_, ?_⟩
  · rw [NodeTree.parentOf_link_other t p c t.root name (fun h => hc h.symm)]
    exact hrootpar
  · intro n q hnq
    by_cases hnc : n = c
    · subst hnc
      by_cases hlt : n < t.nodes.length
      · rw [NodeTree.parentOf_link_self t p n name hlt] at hnq
        injection hnq with hnq
        omega
      · have hnone : (t.link p n name).nodes[n]? = none :=
          List.getElem?_eq_none (by rw [NodeTree.length_link]; omega)
        simp [NodeTree.parentOf, hnone] at hnq
    · rw [NodeTree.parentOf_link_other t p c n name hnc] at hnq
      exact hvalid n q hnq

theorem NodeTree.wellFormed_construct (t : NodeTree) (type : NodeType) (allow : Bool)
    (hwf : t.wellFormed = true) : (t.construct type allow).1.wellFormed = true := by
  obtain ⟨hroot, hrootpar, hvalid⟩ := (NodeTree.wellFormed_iff t).mp hwf
  rw [NodeTree.wellFormed_iff]
  have hlen : (t.construct type allow).1.nodes.length = t.nodes.length + 1 := by
    simp [NodeTree.construct]
  have hr : (t.construct type allow).1.root = t.root := rfl
  rw [hlen, hr]
  refine ⟨by omega, ?_, ?_⟩
  · rw [NodeTree.parentOf_construct]
    exact hrootpar
  · intro n q hnq
    rw [NodeTree.parentOf_construct] at hnq
    have := hvalid n q hnq
    omega

/-- Witness for C12 (amended): the detached Vector of the sample tree is set under the
root and reports attached. -/
theorem attachment_invariant_witness :
    sampleTree.wellFormed = true ∧ 0 < sampleTree.nodes.length ∧
    (⟨.VectorNode, 1⟩ : PyRef).id < sampleTree.nodes.length ∧
    sampleTree.set 0 "data3D" ⟨.VectorNode, 1⟩ = .ok (sampleTree.link 0 1 "data3D") ∧
    sampleTree.isAttached 0 = true ∧
    (sampleTree.link 0 1 "data3D").isAttached 1 = true :=
  ⟨by decide, by decide, by decide, by decide, by decide,
   (attachment_invariant sampleTree (sampleTree.link 0 1 "data3D") 0 "data3D"
      ⟨.VectorNode, 1⟩ (by decide) (by decide) (by decide) (Or.inl (by decide))).1
      (Or.inl (by decide))⟩

/-! ## Homogeneous vectors -/

end Pye57
